import Mathlib

/-!
Verification of the tooeybot agent runtime (cycle-based reasoning engine).

This file gives a shallow embedding, in Lean, of the parts of the
`src/runtime/tooeybot` Python sources that the checked claims are about:

* `budgets.py`   — `AgentBudgets`, `BudgetEnforcer` (limits, counters, persistence)
* `reflection.py`— `StuckDetector`, `CuriosityEvaluator`
* `cycle.py`     — the cycle data model, `ReasoningCycle.run`, JSON fallback parsing
* `agent.py`     — the `Agent._run_cycles` loop
* `executor.py`  — `Executor.execute`
* `logger.py`    — `EventLogger.log` / `log_command`
* `tasks.py`     — `TaskManager.create_task` and inbox-record parsing of
                   the `curiosity_depth` header field
* the missing `curiosity.py` (`CuriosityManager`) is modelled from the spec.

Conventions of the embedding: Python `datetime` values are rational numbers
of seconds, `date` values are natural numbers (one per calendar day);
Python `None` becomes `Option`; code that raises is modelled with `Except`
or with explicit outcome parameters; the LM, the JSON library, the clock and
the operating system are oracles passed in as arguments.
-/

namespace Tooeybot


/-! ## Budgets (`budgets.py`) -/

/-- Budget limits and runtime counters, translated from the `AgentBudgets`
dataclass in `budgets.py`.  `task_started_at` is `Option` because the
Python field defaults to `None`; datetimes are rational seconds. -/
structure AgentBudgets where
  max_iterations_per_task : Nat := 20
  max_consecutive_failures : Nat := 3
  max_actions_without_progress : Nat := 5
  max_active_tasks : Nat := 10
  max_tasks_created_per_cycle : Nat := 3
  max_pending_tasks : Nat := 50
  curiosity_enabled : Bool := true
  max_curiosity_tasks_per_day : Nat := 5
  max_curiosity_depth : Nat := 2
  min_curiosity_value_threshold : Rat := 6/10
  max_task_duration_minutes : Nat := 30
  current_task_iterations : Nat := 0
  current_task_failures : Nat := 0
  actions_without_progress : Nat := 0
  curiosity_tasks_today : Nat := 0
  curiosity_tasks_date : Option Nat := none
  task_started_at : Option Rat := none
deriving Repr, DecidableEq

/-- Translation of `AgentBudgets.reset_for_new_task`. -/
def reset_for_new_task (b : AgentBudgets) (now : Rat) : AgentBudgets :=
  { b with
    current_task_iterations := 0
    current_task_failures := 0
    actions_without_progress := 0
    task_started_at := some now }

/-- Translation of `AgentBudgets.record_iteration`. -/
def record_iteration (b : AgentBudgets) (made_progress had_failure : Bool) :
    AgentBudgets :=
  let b1 := { b with current_task_iterations := b.current_task_iterations + 1 }
  let b2 :=
    if had_failure then
      { b1 with current_task_failures := b1.current_task_failures + 1 }
    else
      { b1 with current_task_failures := 0 }
  if made_progress then
    { b2 with actions_without_progress := 0 }
  else
    { b2 with actions_without_progress := b2.actions_without_progress + 1 }

/-- Translation of `AgentBudgets.record_curiosity_task`; `today` stands for
the result of Python `date.today()`. -/
def record_curiosity_task (b : AgentBudgets) (today : Nat) : AgentBudgets :=
  let b1 :=
    if b.curiosity_tasks_date ≠ some today then
      { b with curiosity_tasks_date := some today, curiosity_tasks_today := 0 }
    else b
  { b1 with curiosity_tasks_today := b1.curiosity_tasks_today + 1 }

/-- Translation of `AgentBudgets.can_create_curiosity_task`. -/
def can_create_curiosity_task (b : AgentBudgets) (today : Nat) : Bool :=
  if !b.curiosity_enabled then false
  else if b.curiosity_tasks_date ≠ some today then true
  else decide (b.curiosity_tasks_today < b.max_curiosity_tasks_per_day)

/-- Reason string of the iteration limit in `BudgetEnforcer.check_can_continue`. -/
def iterationLimitReason (b : AgentBudgets) : String :=
  "Reached maximum iterations (" ++ toString b.max_iterations_per_task ++
    ") for this task"

/-- Translation of `BudgetEnforcer.check_can_continue`.  `now` stands for
`datetime.now()`; elapsed time is `now - task_started_at` in seconds and the
time check compares `elapsed / 60` with the minute limit, as the source does. -/
def check_can_continue (b : AgentBudgets) (now : Rat) : Bool × String :=
  if b.current_task_iterations ≥ b.max_iterations_per_task then
    (false, iterationLimitReason b)
  else if b.current_task_failures ≥ b.max_consecutive_failures then
    (false, "Too many consecutive failures (" ++
      toString b.current_task_failures ++ ")")
  else if b.actions_without_progress ≥ b.max_actions_without_progress then
    (false, "No progress for " ++ toString b.actions_without_progress ++
      " consecutive actions")
  else
    match b.task_started_at with
    | some t =>
        if (now - t) / 60 > (b.max_task_duration_minutes : Rat) then
          (false, "Task exceeded time limit (" ++
            toString b.max_task_duration_minutes ++ " minutes)")
        else (true, "")
    | none => (true, "")

/-- Translation of `BudgetEnforcer.check_can_create_task`. -/
def check_can_create_task (b : AgentBudgets) (pending_count active_count : Nat) :
    Bool × String :=
  if pending_count ≥ b.max_pending_tasks then
    (false, "Too many pending tasks (" ++ toString pending_count ++ "/" ++
      toString b.max_pending_tasks ++ ")")
  else if active_count ≥ b.max_active_tasks then
    (false, "Too many active tasks (" ++ toString active_count ++ "/" ++
      toString b.max_active_tasks ++ ")")
  else (true, "")

/-- Translation of `BudgetEnforcer.check_can_create_curiosity_task`. -/
def check_can_create_curiosity_task (b : AgentBudgets) (depth today : Nat) :
    Bool × String :=
  if !b.curiosity_enabled then (false, "Curiosity is disabled")
  else if depth ≥ b.max_curiosity_depth then
    (false, "Curiosity depth limit reached (" ++ toString depth ++ "/" ++
      toString b.max_curiosity_depth ++ ")")
  else if !can_create_curiosity_task b today then
    (false, "Daily curiosity budget exhausted (" ++
      toString b.curiosity_tasks_today ++ "/" ++
      toString b.max_curiosity_tasks_per_day ++ ")")
  else (true, "")

/-- The `current` block of `AgentBudgets.to_dict`, which is all that
`BudgetEnforcer.save_state` persists to `runtime/budgets.json` (plus the
limits block and a timestamp, neither of which `load_state` reads).
Note that `task_started_at` is not part of it. -/
structure SavedCounters where
  task_iterations : Option Nat := none
  task_failures : Option Nat := none
  actions_without_progress : Option Nat := none
  curiosity_tasks_today : Option Nat := none
deriving Repr, DecidableEq

/-- Translation of `BudgetEnforcer.save_state` restricted to the `current`
counters (the only part `load_state` ever reads back). -/
def save_state (b : AgentBudgets) : SavedCounters :=
  { task_iterations := some b.current_task_iterations
    task_failures := some b.current_task_failures
    actions_without_progress := some b.actions_without_progress
    curiosity_tasks_today := some b.curiosity_tasks_today }

/-- Translation of `BudgetEnforcer.load_state`.  `file = none` covers both a
missing `runtime/budgets.json` and an unreadable one (the Python code returns
early, resp. catches the exception, leaving the budgets unchanged);
`file = some s` is a parsed state whose absent keys default to `0` via
`dict.get(key, 0)`. -/
def load_state (b : AgentBudgets) (file : Option SavedCounters) : AgentBudgets :=
  match file with
  | none => b
  | some s =>
      { b with
        current_task_iterations := s.task_iterations.getD 0
        current_task_failures := s.task_failures.getD 0
        actions_without_progress := s.actions_without_progress.getD 0
        curiosity_tasks_today := s.curiosity_tasks_today.getD 0 }


/-! ## JSON values

Python `json.loads` produces nested dictionaries, lists, strings, numbers,
booleans and `None`; `JVal` mirrors that value universe (numbers as
rationals).  The parser itself is a library function and enters the
embedding as an oracle `String → Option JVal` (`none` = `JSONDecodeError`).
-/

/-- A parsed JSON value. -/
inductive JVal where
  | jnull : JVal
  | jbool (b : Bool) : JVal
  | jnum (q : Rat) : JVal
  | jstr (s : String) : JVal
  | jarr (xs : List JVal) : JVal
  | jobj (fields : List (String × JVal)) : JVal
deriving Repr

mutual

/-- Structural equality of JSON values (Python `==` on parsed values). -/
def JVal.beq : JVal → JVal → Bool
  | .jnull, .jnull => true
  | .jbool a, .jbool b => a == b
  | .jnum a, .jnum b => a == b
  | .jstr a, .jstr b => a == b
  | .jarr xs, .jarr ys => JVal.beqArr xs ys
  | .jobj xs, .jobj ys => JVal.beqObj xs ys
  | _, _ => false

/-- Equality of JSON arrays, elementwise. -/
def JVal.beqArr : List JVal → List JVal → Bool
  | [], [] => true
  | x :: xs, y :: ys => JVal.beq x y && JVal.beqArr xs ys
  | _, _ => false

/-- Equality of JSON objects, as ordered field lists. -/
def JVal.beqObj : List (String × JVal) → List (String × JVal) → Bool
  | [], [] => true
  | (k, v) :: xs, (k', v') :: ys => k == k' && JVal.beq v v' && JVal.beqObj xs ys
  | _, _ => false

end

instance : BEq JVal := ⟨JVal.beq⟩

/-- Python `dict.get(key)` on a parsed JSON object. -/
def jget (fields : List (String × JVal)) (key : String) : Option JVal :=
  (fields.find? (fun kv => kv.1 == key)).map (fun kv => kv.2)

/-! ## Cycle data model (`cycle.py`) -/

/-- Translation of the `ActionType` enum. -/
inductive ActionType where
  | EXECUTE_COMMAND | READ_FILE | WRITE_FILE | ASK_USER
  | INTERNAL_REASONING | COMPLETE_TASK | BLOCK_TASK
deriving Repr, DecidableEq

/-- The `.value` string of each `ActionType` member. -/
def ActionType.value : ActionType → String
  | .EXECUTE_COMMAND => "execute_command"
  | .READ_FILE => "read_file"
  | .WRITE_FILE => "write_file"
  | .ASK_USER => "ask_user"
  | .INTERNAL_REASONING => "internal_reasoning"
  | .COMPLETE_TASK => "complete_task"
  | .BLOCK_TASK => "block_task"

/-- Python `ActionType(s)`: `none` models the `ValueError` raised on an
unknown value string. -/
def actionTypeOfString : String → Option ActionType
  | "execute_command" => some .EXECUTE_COMMAND
  | "read_file" => some .READ_FILE
  | "write_file" => some .WRITE_FILE
  | "ask_user" => some .ASK_USER
  | "internal_reasoning" => some .INTERNAL_REASONING
  | "complete_task" => some .COMPLETE_TASK
  | "block_task" => some .BLOCK_TASK
  | _ => none

/-- Translation of the `Decision` enum. -/
inductive Decision where
  | CONTINUE | COMPLETE | BLOCKED | ASK_USER | BUDGET_EXCEEDED
deriving Repr, DecidableEq

/-- Translation of the `Action` dataclass.  The payload dictionary keeps JSON
values.  (`StuckDetector` compares `str(payload)` strings; `str` is injective
on these dictionaries, so the embedding compares the payloads themselves.) -/
structure Action where
  action_type : ActionType
  payload : List (String × JVal)
  reasoning : String := ""
deriving Repr, BEq

/-- Translation of the `Observation` dataclass. -/
structure Observation where
  success : Bool
  output : String
  error : Option String := none
  files_modified : List String := []
  duration_ms : Nat := 0
deriving Repr, DecidableEq

/-- Translation of the `CuriosityProposal` dataclass. -/
structure CuriosityProposal where
  description : String
  justification : String
  priority : String := "low"
  estimated_value : Rat := 1/2
  category : String := "general"
deriving Repr, DecidableEq

/-- Translation of the `Reflection` dataclass. -/
structure Reflection where
  progress_made : Bool
  what_learned : String
  plan_still_valid : Bool
  proposed_tasks : List CuriosityProposal := []
  stuck_indicators : List String := []
  confidence : Rat := 1/2
  next_step_suggestion : String := ""
deriving Repr, DecidableEq

/-- Translation of the `Plan` dataclass. -/
structure Plan where
  goal : String
  approach : String
  next_action : Action
  remaining_steps : List String := []
  confidence : Rat := 7/10
deriving Repr, BEq

/-- Translation of the `CyclePhase` enum. -/
inductive CyclePhase where
  | PLAN | ACT | OBSERVE | REFLECT | DECIDE
deriving Repr, DecidableEq

/-- Translation of the `CycleState` dataclass (the wall-clock timestamp is
irrelevant to every claim and is omitted). -/
structure CycleState where
  cycle_id : Nat
  task_id : String
  phase : CyclePhase
  plan : Option Plan := none
  action : Option Action := none
  observation : Option Observation := none
  reflection : Option Reflection := none
  decision : Decision := .CONTINUE
deriving Repr, BEq

/-- Translation of the `CycleResult` dataclass. -/
structure CycleResult where
  state : CycleState
  decision : Decision
  proposed_tasks : List CuriosityProposal
  summary : String := ""
deriving Repr, BEq

/-! ## Stuck detection (`reflection.py`, class `StuckDetector`) -/

/-- Python slice `l[-n:]`. -/
def takeLast (n : Nat) (l : List α) : List α := l.drop (l.length - n)

/-- Python `len(set(l)) == 1`. -/
def allEqual [BEq α] : List α → Bool
  | [] => false
  | x :: xs => xs.all (fun y => y == x)

/-- The whitespace class of Python regular expressions (`\s`, ASCII). -/
def isSpaceChar (c : Char) : Bool :=
  c == ' ' || c == '\t' || c == '\n' || c == '\r' || c == '\x0b' || c == '\x0c'

/-- Python `re.sub(r'\d+', 'N', e)`: collapse every maximal digit run to a
single `N`.  The flag records whether the previous character was a digit. -/
def collapseDigitsAux : Bool → List Char → List Char
  | _, [] => []
  | prevDigit, c :: cs =>
      if c.isDigit then
        (if prevDigit then [] else ['N']) ++ collapseDigitsAux true cs
      else c :: collapseDigitsAux false cs

/-- Python `re.sub(r'/[^\s]+', '/PATH', e)`: a slash followed by at least one
non-space character, together with the whole non-space run after it, becomes
`/PATH`.  The flag records whether we are currently swallowing the matched
non-space run. -/
def collapsePathsAux : Bool → List Char → List Char
  | _, [] => []
  | true, c :: cs =>
      if isSpaceChar c then c :: collapsePathsAux false cs
      else collapsePathsAux true cs
  | false, '/' :: c :: cs =>
      if isSpaceChar c then '/' :: collapsePathsAux false (c :: cs)
      else '/' :: 'P' :: 'A' :: 'T' :: 'H' :: collapsePathsAux true cs
  | false, ['/'] => ['/']
  | false, c :: cs => c :: collapsePathsAux false cs

/-- The `normalize` closure of `StuckDetector._errors_similar`:
digit runs to `N`, path segments to `/PATH`, lowercase, first 100 chars. -/
def normalizeError (e : String) : String :=
  String.mk (((collapsePathsAux false (collapseDigitsAux false e.data)).map
    Char.toLower).take 100)

/-- Translation of `StuckDetector._errors_similar`. -/
def errors_similar (errors : List String) : Bool :=
  if errors.isEmpty then false
  else allEqual ((errors.filter (fun e => e != "")).map normalizeError)

/-- The `actions` list built inside `StuckDetector.is_stuck`: one entry
`(action_type, payload)` per cycle that has an action. -/
def actionsOf (recent : List CycleState) : List (ActionType × List (String × JVal)) :=
  recent.filterMap (fun c => c.action.map (fun a => (a.action_type, a.payload)))

/-- The `errors` list built inside `StuckDetector.is_stuck`: the observation
errors of the cycles whose observation carries a truthy (non-empty) error. -/
def errorsOf (recent : List CycleState) : List String :=
  recent.filterMap (fun c =>
    match c.observation with
    | some o =>
        match o.error with
        | some e => if e != "" then some e else none
        | none => none
    | none => none)

/-- Translation of `StuckDetector.is_stuck` (the agent constructs the
detector with the default `window_size = 5`). -/
def is_stuck (window_size : Nat) (history : List CycleState) : Bool × String :=
  if history.length < window_size then (false, "")
  else
    let recent := takeLast window_size history
    let actions := actionsOf recent
    if actions.length ≥ 3 && allEqual (takeLast 3 actions) then
      (true, "Repeating same action: " ++
        (actions.getLastD (.EXECUTE_COMMAND, [])).1.value)
    else
      let errors := errorsOf recent
      if errors.length ≥ 3 && errors_similar (takeLast 3 errors) then
        (true, "Same error repeating: " ++
          ((takeLast 3 errors).getLastD "").take 100)
      else
        let no_progress_count := (recent.filter (fun c =>
          match c.reflection with
          | some r => !r.progress_made
          | none => false)).length
        if no_progress_count ≥ window_size - 1 then
          (true, "No progress for " ++ toString no_progress_count ++
            " consecutive cycles")
        else
          let oscillating :=
            actions.length ≥ 4 &&
              (match takeLast 4 actions with
               | [a4, a3, a2, a1] => a4 == a2 && a3 == a1 && a4 != a3
               | _ => false)
          if oscillating then (true, "Oscillating between two actions")
          else (false, "")

/-! ## Curiosity filtering (`reflection.py`, class `CuriosityEvaluator`) -/

/-- The `ALLOWED_CATEGORIES` class constant. -/
def ALLOWED_CATEGORIES : List String :=
  ["verification", "documentation", "robustness", "exploration"]

/-- Constructor defaults of `CuriosityEvaluator`. -/
structure CuriosityEvaluator where
  min_value_threshold : Rat := 6/10
  max_proposals_per_cycle : Nat := 2
deriving Repr, DecidableEq

/-- The four `continue` filters of `CuriosityEvaluator.evaluate_proposals`,
in source order: minimum value, allowed category, justification length,
description length. -/
def validProposal (ev : CuriosityEvaluator) (p : CuriosityProposal) : Bool :=
  if p.estimated_value < ev.min_value_threshold then false
  else if !(ALLOWED_CATEGORIES.contains p.category) then false
  else if p.justification.length < 10 then false
  else if p.description.length < 20 then false
  else true

/-- Stable insertion of a proposal into a list sorted by value descending;
an element is placed before the first smaller-or-equal value, which matches
the tie behaviour of Python `list.sort(key=..., reverse=True)` (Timsort is
stable and `reverse` keeps equal keys in original order). -/
def insertDesc (x : CuriosityProposal) :
    List CuriosityProposal → List CuriosityProposal
  | [] => [x]
  | y :: ys =>
      if x.estimated_value ≥ y.estimated_value then x :: y :: ys
      else y :: insertDesc x ys

/-- Stable sort by `estimated_value` descending, modelling
`valid.sort(key=lambda p: p.estimated_value, reverse=True)`. -/
def sortByValueDesc : List CuriosityProposal → List CuriosityProposal
  | [] => []
  | x :: xs => insertDesc x (sortByValueDesc xs)

/-- Translation of `CuriosityEvaluator.evaluate_proposals`: filter, sort by
value descending, keep the first `max_proposals_per_cycle`. -/
def evaluate_proposals (ev : CuriosityEvaluator)
    (proposals : List CuriosityProposal) : List CuriosityProposal :=
  if proposals.isEmpty then []
  else (sortByValueDesc (proposals.filter (validProposal ev))).take
    ev.max_proposals_per_cycle

/-! ## Defensive JSON parsing (`cycle.py`, `ReasoningCycle._parse_json_response`)

The LM and `json.loads` are oracles: an LM reply is a `String`, and
`loads : String → Option JVal` stands for `json.loads` (`none` models
`json.JSONDecodeError`). -/

/-- Python `str.strip()` (both ends, whitespace). -/
def pyStrip (s : String) : String :=
  String.mk (((s.data.dropWhile isSpaceChar).reverse.dropWhile isSpaceChar).reverse)

/-- The fenced-code-block extraction
`re.search(r'```(?:json)?\s*\n?(.*?)\n?```', content, re.DOTALL)`:
when the content holds two fences, the captured group is the text between
the first fence (minus an optional `json` tag and the greedily consumed
leading whitespace) and the next fence, minus one trailing newline;
otherwise the content is left unchanged. -/
def stripCodeBlock (content : String) : String :=
  match content.splitOn "```" with
  | _ :: mid :: _ :: _ =>
      let afterTag := if mid.startsWith "json" then mid.drop 4 else mid
      let afterWs := afterTag.data.dropWhile isSpaceChar
      let trimmed :=
        match afterWs.reverse with
        | '\n' :: rest => rest.reverse
        | _ => afterWs
      String.mk trimmed
  | _ => content

/-- The literal dictionary `ReasoningCycle._parse_json_response` returns when
`json.loads` fails: the minimal safe plan/reflection. -/
def fallbackPlanDict : List (String × JVal) :=
  [("goal", .jstr "Continue task"),
   ("approach", .jstr "Proceed with available information"),
   ("next_action", .jobj
     [("action_type", .jstr "execute_command"),
      ("payload", .jobj [("command", .jstr "echo \x27Parse error, continuing\x27")]),
      ("reasoning", .jstr "JSON parse failed, using fallback")]),
   ("progress_made", .jbool false),
   ("what_learned", .jstr "Response parsing failed"),
   ("plan_still_valid", .jbool true)]

/-- Translation of `ReasoningCycle._parse_json_response`: strip an optional
fenced block, strip whitespace, parse; on parse failure return the fallback
dictionary. -/
def parse_json_response (loads : String → Option JVal) (content : String) : JVal :=
  match loads (pyStrip (stripCodeBlock content)) with
  | some j => j
  | none => .jobj fallbackPlanDict

/-! ## Field accessors

Python dataclass fields are untyped; the accessors below return `none`
when a present JSON value does not have the type the downstream code
consumes, which is outside the modelled domain (the Python code would
store the ill-typed value and fail, or misbehave, later). -/

/-- Python `d.get(key, dflt)` for a string-consumed field. -/
def jgetStr (fields : List (String × JVal)) (key dflt : String) : Option String :=
  match jget fields key with
  | none => some dflt
  | some (.jstr s) => some s
  | some _ => none

/-- Python `d.get(key, dflt)` for a string-consumed field, collapsing the
out-of-domain case to the default (used only for terminal-action summaries,
which no claim inspects beyond the in-domain cases). -/
def jgetStrD (fields : List (String × JVal)) (key dflt : String) : String :=
  (jgetStr fields key dflt).getD dflt

/-- Python `d.get(key, dflt)` for a bool-consumed field. -/
def jgetBool (fields : List (String × JVal)) (key : String) (dflt : Bool) :
    Option Bool :=
  match jget fields key with
  | none => some dflt
  | some (.jbool b) => some b
  | some _ => none

/-- Python `d.get(key, dflt)` for a number-consumed field. -/
def jgetNum (fields : List (String × JVal)) (key : String) (dflt : Rat) :
    Option Rat :=
  match jget fields key with
  | none => some dflt
  | some (.jnum q) => some q
  | some _ => none

/-- Python `d.get(key, [])` for a list-of-strings-consumed field. -/
def jgetStrList (fields : List (String × JVal)) (key : String) :
    Option (List String) :=
  match jget fields key with
  | none => some []
  | some (.jarr xs) =>
      xs.mapM (fun x => match x with | .jstr s => some s | _ => none)
  | some _ => none

/-! ## The PLAN phase (`ReasoningCycle._plan`)

The prompt construction is irrelevant to the claims; `content` is the
`response.content` string returned by the LM call. -/

/-- Translation of the parsing half of `ReasoningCycle._plan`: build the
`Plan` from the parsed (or fallback) dictionary.  An `Except.error` models
an exception escaping `_plan` (for example `ValueError` from
`ActionType(...)` on an unknown action-type string), which
`ReasoningCycle.run` catches. -/
def planOfResponse (loads : String → Option JVal) (content : String) :
    Except String Plan := do
  let data := parse_json_response loads content
  match data with
  | .jobj fields => do
      let action_fields ←
        match jget fields "next_action" with
        | none => Except.ok []
        | some (.jobj af) => Except.ok af
        | some _ => Except.error "next_action is not an object"
      let tstr ←
        match jgetStr action_fields "action_type" "execute_command" with
        | some s => Except.ok s
        | none => Except.error "action_type is not a string"
      let atype ←
        match actionTypeOfString tstr with
        | some t => Except.ok t
        | none => Except.error ("ValueError: " ++ tstr ++ " is not a valid ActionType")
      let payload ←
        match jget action_fields "payload" with
        | none => Except.ok []
        | some (.jobj pf) => Except.ok pf
        | some _ => Except.error "payload is not an object"
      let reasoning ←
        match jgetStr action_fields "reasoning" "" with
        | some s => Except.ok s
        | none => Except.error "reasoning is not a string"
      let goal ←
        match jgetStr fields "goal" "Complete the task" with
        | some s => Except.ok s
        | none => Except.error "goal is not a string"
      let approach ←
        match jgetStr fields "approach" "" with
        | some s => Except.ok s
        | none => Except.error "approach is not a string"
      let remaining ←
        match jgetStrList fields "remaining_steps" with
        | some l => Except.ok l
        | none => Except.error "remaining_steps is not a list of strings"
      let confidence ←
        match jgetNum fields "confidence" (7/10) with
        | some q => Except.ok q
        | none => Except.error "confidence is not a number"
      Except.ok
        { goal, approach
          next_action := { action_type := atype, payload, reasoning }
          remaining_steps := remaining, confidence }
  | _ => Except.error "AttributeError: parsed response is not an object"

/-- Translation of the parsing half of `ReasoningCycle._reflect`. -/
def reflectionOfResponse (loads : String → Option JVal) (content : String) :
    Except String Reflection := do
  let data := parse_json_response loads content
  match data with
  | .jobj fields => do
      let progress ←
        match jgetBool fields "progress_made" false with
        | some b => Except.ok b
        | none => Except.error "progress_made is not a bool"
      let learned ←
        match jgetStr fields "what_learned" "" with
        | some s => Except.ok s
        | none => Except.error "what_learned is not a string"
      let valid ←
        match jgetBool fields "plan_still_valid" true with
        | some b => Except.ok b
        | none => Except.error "plan_still_valid is not a bool"
      let proposedRaw ←
        match jget fields "proposed_tasks" with
        | none => Except.ok []
        | some (.jarr xs) => Except.ok xs
        | some _ => Except.error "proposed_tasks is not a list"
      let proposed ←
        proposedRaw.mapM (fun x =>
          match x with
          | .jobj pf => do
              let d ←
                match jgetStr pf "description" "" with
                | some s => Except.ok s
                | none => Except.error "description is not a string"
              let j ←
                match jgetStr pf "justification" "" with
                | some s => Except.ok s
                | none => Except.error "justification is not a string"
              let pr ←
                match jgetStr pf "priority" "low" with
                | some s => Except.ok s
                | none => Except.error "priority is not a string"
              let v ←
                match jgetNum pf "estimated_value" (1/2) with
                | some q => Except.ok q
                | none => Except.error "estimated_value is not a number"
              let c ←
                match jgetStr pf "category" "general" with
                | some s => Except.ok s
                | none => Except.error "category is not a string"
              Except.ok
                ({ description := d, justification := j, priority := pr
                   estimated_value := v, category := c } : CuriosityProposal)
          | _ => Except.error "proposal is not an object")
      let indicators ←
        match jgetStrList fields "stuck_indicators" with
        | some l => Except.ok l
        | none => Except.error "stuck_indicators is not a list of strings"
      let confidence ←
        match jgetNum fields "confidence" (1/2) with
        | some q => Except.ok q
        | none => Except.error "confidence is not a number"
      let nextStep ←
        match jgetStr fields "next_step_suggestion" "" with
        | some s => Except.ok s
        | none => Except.error "next_step_suggestion is not a string"
      Except.ok
        { progress_made := progress, what_learned := learned
          plan_still_valid := valid, proposed_tasks := proposed
          stuck_indicators := indicators, confidence
          next_step_suggestion := nextStep }
  | _ => Except.error "AttributeError: parsed response is not an object"

/-! ## One cycle (`ReasoningCycle.run`)

The four phase bodies enter as oracles: `planRes` is the outcome of
`_plan` (an `Except.error` models any exception raised inside it, in
particular an LM transport error from `llm.chat`), `act` is `_act`
(which never raises: it catches internally and returns a failure
`Observation`), `reflectRes` is `_reflect` and `decideRes` is `_decide`.
`run` reproduces the `try`/`except` of the source: the first error aborts
the cycle, overwrites the observation with a failure record carrying the
stringified exception, sets `Decision.BLOCKED`, and returns a summary
`"Cycle failed: <e>"`. -/

/-- Translation of `ReasoningCycle.run`. -/
def ReasoningCycle.run (cycle_id : Nat) (task_id : String)
    (planRes : Except String Plan) (act : Action → Observation)
    (reflectRes : Except String Reflection)
    (decideRes : Except String Decision) : CycleResult :=
  match planRes with
  | .error e =>
      { state := { cycle_id, task_id, phase := .PLAN
                   observation := some { success := false, output := "", error := some e }
                   decision := .BLOCKED }
        decision := .BLOCKED, proposed_tasks := []
        summary := "Cycle failed: " ++ e }
  | .ok plan =>
      let st0 : CycleState :=
        { cycle_id, task_id, phase := .PLAN
          plan := some plan, action := some plan.next_action }
      match plan.next_action.action_type with
      | .COMPLETE_TASK =>
          { state := { st0 with decision := .COMPLETE }
            decision := .COMPLETE, proposed_tasks := []
            summary := jgetStrD plan.next_action.payload "summary" "Task completed" }
      | .BLOCK_TASK =>
          { state := { st0 with decision := .BLOCKED }
            decision := .BLOCKED, proposed_tasks := []
            summary := jgetStrD plan.next_action.payload "summary" "Task blocked" }
      | .ASK_USER =>
          { state := { st0 with decision := .ASK_USER }
            decision := .ASK_USER, proposed_tasks := []
            summary := jgetStrD plan.next_action.payload "question" "Need clarification" }
      | _ =>
          let obs := act plan.next_action
          match reflectRes with
          | .error e =>
              { state :=
                  { st0 with
                    phase := .REFLECT
                    observation := some { success := false, output := "", error := some e }
                    decision := .BLOCKED }
                decision := .BLOCKED, proposed_tasks := []
                summary := "Cycle failed: " ++ e }
          | .ok refl =>
              match decideRes with
              | .error e =>
                  { state :=
                      { st0 with
                        phase := .DECIDE
                        observation := some { success := false, output := "", error := some e }
                        reflection := some refl
                        decision := .BLOCKED }
                    decision := .BLOCKED, proposed_tasks := []
                    summary := "Cycle failed: " ++ e }
              | .ok d =>
                  { state :=
                      { st0 with
                        phase := .DECIDE
                        observation := some obs
                        reflection := some refl
                        decision := d }
                    decision := d, proposed_tasks := refl.proposed_tasks
                    summary := refl.what_learned }

/-! ## The agent loop (`agent.py`, `Agent._run_cycles`)

Each iteration of the `while True` loop either pauses on the budget
check, pauses on the stuck check, catches an exception raised while
constructing/running the cycle (the `except` branch records a failed
iteration and `continue`s), or commits the produced `CycleState` to the
history, updates the budget ledger and dispatches on the decision.
The cycle engine enters as an oracle `RunOutcome` indexed by the value of
`cycles_run`, and the clock as `now : Nat → Rat`. -/

/-- Outcome of `ReasoningCycle(...)` plus `cycle.run()` inside the `try` of
`Agent._run_cycles`.  `raised` is the `except Exception` branch (dead for LM
errors, which `run` catches itself, but part of the source). -/
inductive RunOutcome where
  | raised (msg : String)
  | returned (res : CycleResult)
deriving Repr, BEq

/-- How `_run_cycles` ends for the active task. -/
inductive TaskEnd where
  | completed (summary : String)
  | blocked (reason : String)
  | pausedAskUser (reason : String)
  | pausedBudget (reason : String)
  | pausedStuck (reason : String)
  | fuelExhausted
deriving Repr, BEq

/-- State of `_run_cycles` when it returns: final decision, committed
history, budget ledger and the `cycles_run` counter. -/
structure RunCyclesResult where
  outcome : TaskEnd
  history : List CycleState
  budgets : AgentBudgets
  cycles_run : Nat
deriving Repr, BEq

/-- Python `s or dflt` for strings. -/
def orDefault (s dflt : String) : String := if s = "" then dflt else s

/-- The `made_progress` value `_run_cycles` derives from a committed state. -/
def madeProgressOf (s : CycleState) : Bool :=
  (s.reflection.map (fun r => r.progress_made)).getD false

/-- The `had_failure` value `_run_cycles` derives from a committed state. -/
def hadFailureOf (s : CycleState) : Bool :=
  (s.observation.map (fun o => !o.success)).getD false

/-- The annotation `Agent._handle_budget_exceeded` pauses the task with. -/
def handle_budget_exceeded_reason (reason : String) : String :=
  "Budget exceeded: " ++ reason

/-- The annotation `Agent._handle_stuck` pauses the task with. -/
def handle_stuck_reason (reason : String) : String :=
  "Agent stuck: " ++ reason

/-- Translation of the `while True` loop of `Agent._run_cycles`, with fuel
to make the recursion total; `stuckFn` is the injected
`self.stuck_detector.is_stuck` (the agent uses `is_stuck 5`), `oracle k` the
outcome of the `k`-th constructed cycle, `now k` the wall clock at the
`k`-th budget check, `h` the loaded history and `n` the `cycles_run`
counter. -/
def run_cycles (stuckFn : List CycleState → Bool × String)
    (oracle : Nat → RunOutcome) (now : Nat → Rat) :
    Nat → AgentBudgets → List CycleState → Nat → RunCyclesResult
  | 0, b, h, n => ⟨.fuelExhausted, h, b, n⟩
  | fuel + 1, b, h, n =>
      let n' := n + 1
      let cc := check_can_continue b (now n')
      if !cc.1 then ⟨.pausedBudget cc.2, h, b, n'⟩
      else
        let st := stuckFn h
        if st.1 then ⟨.pausedStuck st.2, h, b, n'⟩
        else
          match oracle n' with
          | .raised _ =>
              run_cycles stuckFn oracle now fuel
                (record_iteration b false true) h n'
          | .returned res =>
              let h' := h ++ [res.state]
              let b' := record_iteration b (madeProgressOf res.state)
                (hadFailureOf res.state)
              match res.decision with
              | .COMPLETE =>
                  ⟨.completed (orDefault res.summary "Task completed"), h', b', n'⟩
              | .BLOCKED =>
                  ⟨.blocked (orDefault res.summary "Task blocked"), h', b', n'⟩
              | .ASK_USER =>
                  ⟨.pausedAskUser (orDefault res.summary "Needs user clarification"),
                    h', b', n'⟩
              | .BUDGET_EXCEEDED =>
                  ⟨.pausedBudget "Budget exceeded", h', b', n'⟩
              | .CONTINUE => run_cycles stuckFn oracle now fuel b' h' n'

/-! ## Event logging (`logger.py`, class `EventLogger`) -/

/-- The flattened shape of the `Event` dataclass as the claims need it
(`event_type`, context, the `execution` payload of `log_command`, and the
`observations` outcome).  Serialization to the JSON line is an oracle. -/
structure Event where
  event_type : String
  task_id : Option String := none
  triggering_skill : Option String := none
  execution_cmds : List (String × List String × String) := []
  execution_exit_codes : List Int := []
  execution_duration_ms : Option Nat := none
  observations : Option String := none
deriving Repr, DecidableEq

/-- The clock oracle of `EventLogger._get_today_log`: the `%Y-%m-%d` date
strings of `datetime.now(timezone.utc)` and of the host-local
`datetime.now()` at the moment of the append (they differ for several hours
around the UTC midnight on any host whose zone offset is nonzero). -/
structure Clock where
  utcDate : String
  localDate : String
deriving Repr, DecidableEq

/-- Translation of `EventLogger._get_today_log`: the source formats
`datetime.now(timezone.utc)`, the UTC date. -/
def get_today_log (clock : Clock) : String :=
  "logs/events/" ++ clock.utcDate ++ ".jsonl"

/-- The log path as the SPEC words it: the host-local date.  Defined for
comparison with `get_today_log`, which the source computes from the UTC
date. -/
def spec_local_log_path (clock : Clock) : String :=
  "logs/events/" ++ clock.localDate ++ ".jsonl"

/-- Outcome of the `open`/`json.dump`/`write` in `EventLogger.log`. -/
inductive WriteOutcome where
  | ok
  | failed (err : String)
deriving Repr, DecidableEq

/-- One line printed to process stderr by the `except` branch of
`EventLogger.log`: the `CRITICAL` notice carrying the stringified
exception, and the event body (`print` formatting is elided). -/
inductive StderrNote where
  | critical (msg : String)
  | eventBody (e : Event)
deriving Repr, DecidableEq

/-- The externally visible effect of one `EventLogger.log` call. -/
structure LogEffect where
  appended : Option (String × Event)
  stderr : List StderrNote
deriving Repr, DecidableEq

/-- Translation of `EventLogger.log`: append one JSON line for the event to
today's log file; on any write failure print a `CRITICAL` notice plus the
event body to stderr (never silent). -/
def EventLogger.log (clock : Clock) (event : Event) (write : WriteOutcome) :
    LogEffect :=
  match write with
  | .ok => { appended := some (get_today_log clock, event), stderr := [] }
  | .failed e =>
      { appended := none
        stderr := [.critical ("Failed to write event log: " ++ e),
                   .eventBody event] }

/-- Translation of `EventLogger.log_command`: the event it constructs. -/
def log_command (cmd : String) (args : List String) (cwd : String)
    (exit_code : Int) (duration_ms : Nat)
    (task_id skill : Option String) : Event :=
  { event_type := "command_execution"
    task_id
    triggering_skill := skill
    execution_cmds := [(cmd, args, cwd)]
    execution_exit_codes := [exit_code]
    execution_duration_ms := some duration_ms }

/-! ## The executor (`executor.py`, `Executor.execute`) -/

/-- Result dataclass of a command execution. -/
structure ExecutionResult where
  command : String
  args : List String
  cwd : String
  exit_code : Int
  stdout : String
  stderr : String
  duration_ms : Nat
  timed_out : Bool := false
deriving Repr, DecidableEq

/-- Outcome of the `subprocess.run` call, as an oracle: normal completion,
`TimeoutExpired` (with the possibly captured partial stdout),
`FileNotFoundError` (missing executable), or any other exception. -/
inductive SpawnOutcome where
  | completed (returncode : Int) (stdout stderr : String)
  | timedOut (partialStdout : Option String)
  | notFound
  | otherError (msg : String)
deriving Repr, DecidableEq

/-- Translation of `Executor.execute`: dispatch on the spawn outcome, then
log a `command_execution` event (always), then return the result.
`duration_ms` is the measured wall-clock duration oracle. -/
def Executor.execute (command : String) (args : List String) (cwd : String)
    (timeout : Nat) (outcome : SpawnOutcome) (duration_ms : Nat)
    (task_id skill : Option String) : ExecutionResult × Event :=
  let exit_code : Int :=
    match outcome with
    | .completed rc _ _ => rc
    | .timedOut _ => -1
    | .notFound => 127
    | .otherError _ => -1
  let stdout :=
    match outcome with
    | .completed _ out _ => out
    | .timedOut pout => pout.getD ""
    | .notFound => ""
    | .otherError _ => ""
  let stderr :=
    match outcome with
    | .completed _ _ err => err
    | .timedOut _ => "Command timed out after " ++ toString timeout ++ "s"
    | .notFound => "Command not found: " ++ command
    | .otherError msg => msg
  let timed_out :=
    match outcome with
    | .timedOut _ => true
    | _ => false
  (⟨command, args, cwd, exit_code, stdout, stderr, duration_ms, timed_out⟩,
   log_command command args cwd exit_code duration_ms task_id skill)

/-! ## Context assembly (`context.py`, class `ContextAssembler`) -/

/-- Translation of the `ContextItem` dataclass. -/
structure ContextItem where
  name : String
  content : String
  tier : String
  priority : Int
  token_estimate : Nat
deriving Repr, DecidableEq

/-- The `CHARS_PER_TOKEN` class constant. -/
def CHARS_PER_TOKEN : Nat := 4

/-- Translation of `ContextAssembler.estimate_tokens`:
`len(text) // CHARS_PER_TOKEN` (floor division). -/
def estimate_tokens (text : String) : Nat :=
  text.length / CHARS_PER_TOKEN

/-- Token estimate as the SPEC words it: `ceil(chars/4)`.  Defined for
comparison with `estimate_tokens`, which the source computes as a floor. -/
def spec_ceil_estimate (text : String) : Nat :=
  (text.length + 3) / 4

/-- Stable insertion by `priority` ascending, matching the tie behaviour of
`all_items.sort(key=lambda x: x.priority)`. -/
def insertByPriority (x : ContextItem) :
    List ContextItem → List ContextItem
  | [] => [x]
  | y :: ys =>
      if x.priority < y.priority then x :: y :: ys
      else y :: insertByPriority x ys

/-- Stable sort by `priority` ascending. -/
def sortByPriority : List ContextItem → List ContextItem
  | [] => []
  | x :: xs => insertByPriority x (sortByPriority xs)

/-- The body of the `for item in all_items` loop of
`ContextAssembler.assemble`: over-budget must-have (`"always"`) items are
truncated to the available tokens and marked, but only when more than 100
tokens remain; over-budget optional items are skipped; fitting items are
appended whole. -/
def assembleStep (max_tokens : Nat) (acc : List String × Nat)
    (item : ContextItem) : List String × Nat :=
  let assembled := acc.1
  let total := acc.2
  if total + item.token_estimate > max_tokens then
    if item.tier = "always" then
      let available := max_tokens - total
      if available > 100 then
        (assembled ++ ["## " ++ item.name ++ "\n" ++
          item.content.take (available * CHARS_PER_TOKEN) ++ "\n[truncated]"],
         total + available)
      else (assembled, total)
    else (assembled, total)
  else
    (assembled ++ ["## " ++ item.name ++ "\n" ++ item.content],
     total + item.token_estimate)

/-- Translation of the budget-enforcing part of `ContextAssembler.assemble`
(the items themselves — identity, task spec, memories, beliefs — enter as
the already-built list). -/
def assemble (max_tokens : Nat) (items : List ContextItem) : String :=
  let sorted := sortByPriority items
  let folded := sorted.foldl (assembleStep max_tokens) ([], 0)
  String.intercalate "\n\n---\n\n" folded.1

/-! ## Task store (`tasks.py`) -/

/-- Translation of the `TaskOrigin` enum. -/
inductive TaskOrigin where
  | USER | PLAN | CURIOSITY | RECOVERY
deriving Repr, DecidableEq

/-- The `.value` string of each `TaskOrigin` member. -/
def TaskOrigin.value : TaskOrigin → String
  | .USER => "user"
  | .PLAN => "plan"
  | .CURIOSITY => "curiosity"
  | .RECOVERY => "recovery"

/-- Translation of the `Task` dataclass (timestamps omitted). -/
structure Task where
  task_id : String
  priority : String
  deadline : Option Rat := none
  context : String := ""
  description : String
  success_criteria : List String := []
  raw_content : String := ""
  origin : TaskOrigin := .USER
  parent_task_id : Option String := none
  iteration_count : Nat := 0
  max_iterations : Nat := 20
  curiosity_depth : Nat := 0
  status : String := "pending"
deriving Repr, DecidableEq

/-- Translation of `TaskManager.create_task`: the `Task` it returns and the
raw inbox block it appends.  `success_criteria = none` models the Python
default `None` (replaced by `["Task completed successfully"]`); `task_id`
is the caller-supplied or generated id.  Note the header block writes
`task_id`, `priority`, optionally `origin`, `parent_task` and `context`,
and nothing else — in particular no `curiosity_depth` line — and the
constructed `Task` leaves `curiosity_depth` at its dataclass default `0`. -/
def create_task (description : String) (origin : TaskOrigin)
    (priority : String) (parent_task_id : Option String)
    (context : String) (success_criteria : Option (List String))
    (task_id : String) : Task :=
  let criteria := success_criteria.getD ["Task completed successfully"]
  let criteria_text := String.intercalate "\n" (criteria.map (fun c => "- " ++ c))
  let origin_line :=
    if origin ≠ TaskOrigin.USER then "origin: " ++ origin.value ++ "\n" else ""
  let parent_line :=
    if parent_task_id.getD "" ≠ "" then
      "parent_task: " ++ parent_task_id.getD "" ++ "\n"
    else ""
  let context_block :=
    if context ≠ "" then "context: |\n  " ++ context ++ "\n" else ""
  let raw_content :=
    "---\ntask_id: " ++ task_id ++ "\npriority: " ++ priority ++ "\n" ++
    origin_line ++ parent_line ++ context_block ++ "---\n" ++
    description ++ "\n\n## Success criteria\n" ++ criteria_text ++ "\n"
  { task_id, priority
    deadline := none
    context, description
    success_criteria := criteria
    raw_content, origin, parent_task_id }

/-- Occurrence scan behind Python `sub in s`, on character lists. -/
def containsSubAux (sub : List Char) : List Char → Bool
  | [] => sub.isEmpty
  | c :: cs => sub.isPrefixOf (c :: cs) || containsSubAux sub cs

/-- Python `sub in s`. -/
def containsSub (s sub : String) : Bool :=
  containsSubAux sub.data s.data

/-- Splitter behind Python `s.split(sep)`, on character lists, with fuel so
that the recursion is structural. -/
def splitOnCharsAux (sep : List Char) :
    Nat → List Char → List Char → List (List Char)
  | 0, acc, _ => [acc.reverse]
  | _ + 1, acc, [] => [acc.reverse]
  | fuel + 1, acc, c :: cs =>
      if sep.isPrefixOf (c :: cs) then
        acc.reverse :: splitOnCharsAux sep fuel [] (cs.drop (sep.length - 1))
      else splitOnCharsAux sep fuel (c :: acc) cs

/-- Python `s.split(sep)` (non-overlapping, left to right), on character
lists. -/
def splitOnChars (sep s : List Char) : List (List Char) :=
  splitOnCharsAux sep s.length [] s

/-- The header lines of a `---`-fenced task record: the text between the
first two fences, split into lines (the region `TaskParser.TASK_PATTERN`
matches its header groups against). -/
def headerLines (record : String) : List (List Char) :=
  match splitOnChars ['-', '-', '-'] record.data with
  | _ :: header :: _ => splitOnChars ['\n'] header
  | _ => []

/-- Decimal digits to a number (the regex group `(\d+)` plus `int(...)`). -/
def parseNatChars (cs : List Char) : Option Nat :=
  if cs.isEmpty then none
  else if cs.all Char.isDigit then
    some (cs.foldl (fun a c => a * 10 + (c.toNat - 48)) 0)
  else none

/-- The `curiosity_depth` value `TaskParser.parse_inbox` recovers from a
record: the integer of an optional `curiosity_depth: <digits>` header line
(pattern group 7), with `0` when the line is absent — the dataclass
default.  The embedding matches the canonical single-space form that the
writers in this codebase emit. -/
def parsedCuriosityDepth (record : String) : Nat :=
  match (headerLines record).filterMap (fun l =>
      if ("curiosity_depth: ".data).isPrefixOf l then
        parseNatChars (l.drop 17)
      else none) with
  | d :: _ => d
  | [] => 0

/-! ## Curiosity admission (`curiosity.py`, class `CuriosityManager`)

The module `curiosity.py` is imported and called by `agent.py`
(`CuriosityManager(...)`, `process_proposals(proposals, parent_task_id,
parent_depth)`) but its source file is not among the provided sources, so
the admitter below is modelled from the spec. -/

/-- Modelled from the spec: `CuriosityManager.process_proposals`
(`curiosity.py` is missing from the sources; only its constructor and call
sites appear in `agent.py`).  Spec section 4.9: given proposals, a parent
task id and the parent depth, filter them (the curiosity filter of section
4.8, implemented by `CuriosityEvaluator.evaluate_proposals`), and for each
surviving proposal consult the budget ledger — `can_create_curiosity
(parent_depth+1)` and `can_create_task(...)` — and, if admitted, create the
task through the task store (`Task Store.create`, implemented by
`TaskManager.create_task`) with `origin=curiosity`, the parent task id and
the proposal's priority, then `record_curiosity()`.  `ids k` supplies the
generated task id of the `k`-th admitted task; the queue counts are fixed
snapshots.  `admitStep` is the per-proposal step, folded below. -/
def admitStep (today pending_count active_count : Nat)
    (parent_task_id : String) (depth1 : Nat) (ids : Nat → String)
    (acc : List Task × AgentBudgets) (p : CuriosityProposal) :
    List Task × AgentBudgets :=
  if (check_can_create_curiosity_task acc.2 depth1 today).1 &&
     (check_can_create_task acc.2 pending_count active_count).1 then
    (acc.1 ++ [create_task p.description .CURIOSITY p.priority
       (some parent_task_id) "" none (ids acc.1.length)],
     record_curiosity_task acc.2 today)
  else acc

/-- Modelled from the spec: the whole of `CuriosityManager.process_proposals`
as the fold of `admitStep` over the filtered proposals, starting from no
created tasks and the current ledger. -/
def process_proposals (ev : CuriosityEvaluator) (b : AgentBudgets)
    (today : Nat) (pending_count active_count : Nat)
    (proposals : List CuriosityProposal) (parent_task_id : String)
    (parent_depth : Nat) (ids : Nat → String) : List Task × AgentBudgets :=
  (evaluate_proposals ev proposals).foldl
    (admitStep today pending_count active_count parent_task_id
      (parent_depth + 1) ids) ([], b)

/-! ## Concrete sample values used by witnesses and counterexamples -/

/-- A committed cycle that succeeded, made progress, and decided CONTINUE. -/
def wContinueResult : CycleResult :=
  { state :=
      { cycle_id := 1, task_id := "T-1", phase := .DECIDE
        action := some
          { action_type := .EXECUTE_COMMAND
            payload := [("command", .jstr "echo ok")] }
        observation := some { success := true, output := "ok" }
        reflection := some
          { progress_made := true, what_learned := "", plan_still_valid := true }
        decision := .CONTINUE }
    decision := .CONTINUE
    proposed_tasks := [] }

/-- The cycle result produced when the PLAN-phase LM call raises. -/
def wBlockedResult : CycleResult :=
  ReasoningCycle.run 1 "T-1" (.error "LM down")
    (fun _ => { success := true, output := "" })
    (.error "LM down") (.error "LM down")

/-- One cycle of the repeated-error scenario: distinct commands per cycle,
identical observation errors, no progress reported. -/
def wErrCycle (i : Nat) : CycleState :=
  { cycle_id := i, task_id := "T-err", phase := .DECIDE
    action := some
      { action_type := .EXECUTE_COMMAND
        payload := [("command", .jstr ("attempt " ++ toString i))] }
    observation := some
      { success := false, output := ""
        error := some "cannot open /tmp/xyz: No such file or directory" }
    reflection := some
      { progress_made := false, what_learned := "", plan_still_valid := true }
    decision := .CONTINUE }

/-- Three committed cycles with identical errors. -/
def wErrHistory3 : List CycleState := [wErrCycle 1, wErrCycle 2, wErrCycle 3]

/-- Five committed cycles with identical errors and distinct actions. -/
def wErrHistory5 : List CycleState :=
  [wErrCycle 1, wErrCycle 2, wErrCycle 3, wErrCycle 4, wErrCycle 5]

/-- A curiosity proposal that passes every filter (its value is the integer
rational `1`, which the kernel can evaluate, unlike reduced fractions). -/
def wAdmitProposal : CuriosityProposal :=
  { description := "Verify the inbox parser round-trips records"
    justification := "Found surprising behaviour"
    priority := "low"
    estimated_value := 1
    category := "verification" }

/-- An evaluator with an integer threshold, for computable admission runs. -/
def wEvalZero : CuriosityEvaluator := { min_value_threshold := 0 }

/-- A placeholder task used as the `headD` default. -/
def wDefaultTask : Task :=
  { task_id := "", priority := "", description := "" }

/-- The single task created in the concrete curiosity-admission run. -/
def wC3run : List Task × AgentBudgets :=
  process_proposals wEvalZero {} 0 0 1 [wAdmitProposal] "T-1" 0
    (fun _ => "CUR-1")

/-- A minimal event for the logger claims. -/
def wEvent : Event := { event_type := "startup" }

/-- The plan that `planOfResponse` builds from the fallback dictionary. -/
def fallbackPlan : Plan :=
  { goal := "Continue task"
    approach := "Proceed with available information"
    next_action :=
      { action_type := .EXECUTE_COMMAND
        payload := [("command", .jstr "echo \x27Parse error, continuing\x27")]
        reasoning := "JSON parse failed, using fallback" }
    remaining_steps := []
    confidence := 7/10 }

/-- The reflection that `reflectionOfResponse` builds from the fallback
dictionary. -/
def fallbackReflection : Reflection :=
  { progress_made := false
    what_learned := "Response parsing failed"
    plan_still_valid := true
    proposed_tasks := []
    stuck_indicators := []
    confidence := 1/2
    next_step_suggestion := "" }

/-- A successful reflection sample. -/
def wRefl : Reflection :=
  { progress_made := false, what_learned := "ran the command"
    plan_still_valid := true }

/-- A budget ledger reloaded after a crash: counters restored,
`task_started_at` still `none`. -/
def wLoadedBudgets : AgentBudgets :=
  load_state {} (some { task_iterations := some 4 })

/-- The three curiosity proposals of the admission scenario (values 0.9,
0.7 and 0.4). -/
def wProposals : List CuriosityProposal :=
  [{ description := "a task with a long description here"
     justification := "justified because"
     estimated_value := 9/10, category := "verification" },
   { description := "another task long description here"
     justification := "justified because"
     estimated_value := 7/10, category := "exploration" },
   { description := "third task with long description xx"
     justification := "justified because"
     estimated_value := 4/10, category := "exploration" }]

/-! ## Supporting lemmas -/

theorem orDefault_of_ne (s d : String) (h : s ≠ "") : orDefault s d = s := by
  simp [orDefault, h]

theorem cycleFailed_ne_empty (e : String) : "Cycle failed: " ++ e ≠ "" := by
  intro h
  have h2 := congrArg String.length h
  rw [String.length_append] at h2
  have h3 : ("Cycle failed: " : String).length = 14 := by decide
  have h4 : ("" : String).length = 0 := by decide
  omega

theorem run_cycles_budget_stop (stuckFn : List CycleState → Bool × String)
    (oracle : Nat → RunOutcome) (clock : Nat → Rat) (fuel : Nat)
    (b : AgentBudgets) (h : List CycleState) (n : Nat)
    (hcc : (check_can_continue b (clock (n + 1))).1 = false) :
    run_cycles stuckFn oracle clock (fuel + 1) b h n =
      ⟨.pausedBudget (check_can_continue b (clock (n + 1))).2, h, b, n + 1⟩ := by
  simp [run_cycles, hcc]

theorem run_cycles_stuck_stop (stuckFn : List CycleState → Bool × String)
    (oracle : Nat → RunOutcome) (clock : Nat → Rat) (fuel : Nat)
    (b : AgentBudgets) (h : List CycleState) (n : Nat) (r : String)
    (hcc : (check_can_continue b (clock (n + 1))).1 = true)
    (hst : stuckFn h = (true, r)) :
    run_cycles stuckFn oracle clock (fuel + 1) b h n =
      ⟨.pausedStuck r, h, b, n + 1⟩ := by
  simp [run_cycles, hcc, hst]

theorem run_cycles_continue (stuckFn : List CycleState → Bool × String)
    (oracle : Nat → RunOutcome) (clock : Nat → Rat) (fuel : Nat)
    (b : AgentBudgets) (h : List CycleState) (n : Nat) (res : CycleResult)
    (hcc : (check_can_continue b (clock (n + 1))).1 = true)
    (hst : (stuckFn h).1 = false)
    (hor : oracle (n + 1) = .returned res)
    (hdec : res.decision = .CONTINUE) :
    run_cycles stuckFn oracle clock (fuel + 1) b h n =
      run_cycles stuckFn oracle clock fuel
        (record_iteration b (madeProgressOf res.state) (hadFailureOf res.state))
        (h ++ [res.state]) (n + 1) := by
  simp [run_cycles, hcc, hst, hor, hdec]

theorem run_cycles_blocked (stuckFn : List CycleState → Bool × String)
    (oracle : Nat → RunOutcome) (clock : Nat → Rat) (fuel : Nat)
    (b : AgentBudgets) (h : List CycleState) (n : Nat) (res : CycleResult)
    (hcc : (check_can_continue b (clock (n + 1))).1 = true)
    (hst : (stuckFn h).1 = false)
    (hor : oracle (n + 1) = .returned res)
    (hdec : res.decision = .BLOCKED) :
    run_cycles stuckFn oracle clock (fuel + 1) b h n =
      ⟨.blocked (orDefault res.summary "Task blocked"), h ++ [res.state],
       record_iteration b (madeProgressOf res.state) (hadFailureOf res.state),
       n + 1⟩ := by
  simp [run_cycles, hcc, hst, hor, hdec]

/-- Field behaviour of `record_iteration` for a progressing, non-failing
iteration. -/
theorem record_iteration_progress (b : AgentBudgets) :
    record_iteration b true false =
      { b with
        current_task_iterations := b.current_task_iterations + 1
        current_task_failures := 0
        actions_without_progress := 0 } := by
  simp [record_iteration]

/-- Main induction for the iteration limit: starting `j` iterations below
`max_iterations_per_task` with clean failure/no-progress counters and a
wall clock inside the time limit, a run whose cycles all succeed, progress
and decide CONTINUE commits exactly `j` more cycles and then pauses with
the iteration-limit reason, consulting no oracle entry beyond `n + j`. -/
theorem run_cycles_iteration_limit (stuckFn : List CycleState → Bool × String)
    (results : Nat → CycleResult) (clock : Nat → Rat) (M F P D : Nat) (t : Rat)
    (hF : 0 < F) (hP : 0 < P)
    (hstuck : ∀ hist, stuckFn hist = (false, ""))
    (htime : ∀ k, ¬ ((clock k - t) / 60 > (D : Rat))) (j : Nat) :
    ∀ (b : AgentBudgets) (h : List CycleState) (n fuel : Nat),
      b.max_iterations_per_task = M → b.max_consecutive_failures = F →
      b.max_actions_without_progress = P → b.max_task_duration_minutes = D →
      b.task_started_at = some t →
      b.current_task_iterations + j = M →
      b.current_task_failures = 0 → b.actions_without_progress = 0 →
      (∀ k, n < k → k ≤ n + j →
        (results k).decision = .CONTINUE ∧
        madeProgressOf (results k).state = true ∧
        hadFailureOf (results k).state = false) →
      j < fuel →
      run_cycles stuckFn (fun k => .returned (results k)) clock fuel b h n =
        ⟨.pausedBudget ("Reached maximum iterations (" ++ toString M ++
          ") for this task"),
         h ++ (List.range' (n + 1) j).map (fun k => (results k).state),
         { b with current_task_iterations := M }, n + j + 1⟩ := by
  induction j with
  | zero =>
      intro b h n fuel hM hF2 hP2 hD2 hT hiter hfail hprog hres hfuel
      obtain ⟨f, rfl⟩ : ∃ f, fuel = f + 1 := ⟨fuel - 1, by omega⟩
      have h1 : b.current_task_iterations ≥ b.max_iterations_per_task := by omega
      have hc : check_can_continue b (clock (n + 1)) =
          (false, "Reached maximum iterations (" ++
            toString b.max_iterations_per_task ++ ") for this task") := by
        rw [check_can_continue, if_pos h1]
        rfl
      rw [run_cycles_budget_stop _ _ _ _ _ _ _ (by rw [hc]), hc]
      obtain ⟨mi, mcf, mapr, mat, mtc, mpt, ce, mcd, mcdp, mcv, mtd, cti, ctf,
        awp, ctt, ctdt, tsa⟩ := b
      simp only at hM hiter
      subst hM
      simp [RunCyclesResult.mk.injEq, AgentBudgets.mk.injEq]
      omega
  | succ j ih =>
      intro b h n fuel hM hF2 hP2 hD2 hT hiter hfail hprog hres hfuel
      obtain ⟨f, rfl⟩ : ∃ f, fuel = f + 1 := ⟨fuel - 1, by omega⟩
      have hc : check_can_continue b (clock (n + 1)) = (true, "") := by
        unfold check_can_continue
        rw [hT]
        rw [if_neg (by omega), if_neg (by omega), if_neg (by omega)]
        exact if_neg (by rw [hD2]; exact htime (n + 1))
      have hr := hres (n + 1) (by omega) (by omega)
      rw [run_cycles_continue _ _ _ _ _ _ _ _ (by rw [hc]) (by rw [hstuck])
        rfl hr.1]
      rw [hr.2.1, hr.2.2, record_iteration_progress]
      rw [ih _ _ _ _ (by simpa using hM) (by simpa using hF2)
        (by simpa using hP2) (by simpa using hD2) (by simpa using hT)
        (by simp; omega) (by simp) (by simp)
        (fun k hk1 hk2 => hres k (by omega) (by omega)) (by omega)]
      simp [List.range'_succ, RunCyclesResult.mk.injEq, List.append_assoc,
        hfail, hprog]
      omega

/-- Claim C1: whenever `current_task_iterations ≥ max_iterations_per_task`,
`check_can_continue` returns `false` with reason
`"Reached maximum iterations (N) for this task"` (N the configured limit);
and, starting a fresh task whose cycles all succeed, progress and decide
CONTINUE, the loop commits exactly `max_iterations_per_task` cycles and the
next loop iteration pauses the task at the budget check — the result is the
same for every oracle agreeing on the first `max_iterations_per_task`
cycles, so the `(max+1)`-th attempt is rejected before any LM call and no
`(max+1)`-th cycle appears in the history. -/
theorem C1_iteration_limit (b : AgentBudgets) (now : Rat)
    (hge : b.current_task_iterations ≥ b.max_iterations_per_task)
    (limits : AgentBudgets) (t : Rat)
    (stuckFn : List CycleState → Bool × String)
    (results : Nat → CycleResult) (clock : Nat → Rat)
    (hfail : 0 < limits.max_consecutive_failures)
    (hprog : 0 < limits.max_actions_without_progress)
    (hstuck : ∀ hist, stuckFn hist = (false, ""))
    (htime : ∀ k, ¬ ((clock k - t) / 60 >
      (limits.max_task_duration_minutes : Rat)))
    (hres : ∀ k, 1 ≤ k → k ≤ limits.max_iterations_per_task →
      (results k).decision = .CONTINUE ∧
      madeProgressOf (results k).state = true ∧
      hadFailureOf (results k).state = false) :
    check_can_continue b now =
      (false, "Reached maximum iterations (" ++
        toString b.max_iterations_per_task ++ ") for this task") ∧
    run_cycles stuckFn (fun k => .returned (results k)) clock
        (limits.max_iterations_per_task + 1) (reset_for_new_task limits t) [] 0 =
      ⟨.pausedBudget ("Reached maximum iterations (" ++
          toString limits.max_iterations_per_task ++ ") for this task"),
       (List.range' 1 limits.max_iterations_per_task).map
         (fun k => (results k).state),
       { reset_for_new_task limits t with
         current_task_iterations := limits.max_iterations_per_task },
       limits.max_iterations_per_task + 1⟩ := by
  constructor
  · rw [check_can_continue, if_pos hge]
    rfl
  · have h := run_cycles_iteration_limit stuckFn results clock
      limits.max_iterations_per_task limits.max_consecutive_failures
      limits.max_actions_without_progress limits.max_task_duration_minutes t
      hfail hprog hstuck htime limits.max_iterations_per_task
      (reset_for_new_task limits t) [] 0 (limits.max_iterations_per_task + 1)
      rfl rfl rfl rfl rfl (by simp [reset_for_new_task]) rfl rfl
      (fun k h1 h2 => hres k h1 (by omega)) (by omega)
    simpa using h

/-- Witness for C1 at a concrete instance: limit 2 reached rejects with the
exact reason, and a fresh run with limit 3 commits three cycles then pauses. -/
theorem C1_iteration_limit_witness :
    check_can_continue
        { max_iterations_per_task := 2, current_task_iterations := 2 } 0 =
      (false, "Reached maximum iterations (2) for this task") ∧
    run_cycles (fun _ => (false, "")) (fun _ => .returned wContinueResult)
        (fun _ => 0) 4 (reset_for_new_task { max_iterations_per_task := 3 } 0)
        [] 0 =
      ⟨.pausedBudget "Reached maximum iterations (3) for this task",
       [wContinueResult.state, wContinueResult.state, wContinueResult.state],
       { reset_for_new_task { max_iterations_per_task := 3 } 0 with
         current_task_iterations := 3 }, 4⟩ :=
  C1_iteration_limit
    { max_iterations_per_task := 2, current_task_iterations := 2 } 0
    (by decide) { max_iterations_per_task := 3 } 0
    (fun _ => (false, "")) (fun _ => wContinueResult) (fun _ => 0)
    (by decide) (by decide) (fun _ => rfl) (fun _ => by norm_num)
    (fun _ _ _ => ⟨rfl, rfl, rfl⟩)

/-- Counterexample to claim C2: a single PLAN-phase LM error does not let
the loop continue to the next cycle — `ReasoningCycle.run` catches the
exception and returns `Decision.BLOCKED`, so the very first LM failure
blocks the task: the run ends `blocked` with exactly one committed cycle,
long before `max_consecutive_failures = 3` failures. -/
theorem C2_counterexample :
    (run_cycles (fun _ => (false, "")) (fun _ => .returned wBlockedResult)
        (fun _ => 0) 4 ({} : AgentBudgets) [] 0).outcome =
      .blocked "Cycle failed: LM down" ∧
    (run_cycles (fun _ => (false, "")) (fun _ => .returned wBlockedResult)
        (fun _ => 0) 4 ({} : AgentBudgets) [] 0).history.length = 1 ∧
    (run_cycles (fun _ => (false, "")) (fun _ => .returned wBlockedResult)
        (fun _ => 0) 4 ({} : AgentBudgets)
        [] 0).budgets.current_task_failures = 1 := by
  refine ⟨?_, ?_, ?_⟩ <;> rfl

/-- Claim C2 as amended: when the LM call raises during a cycle (modelled by
the PLAN phase returning an error), the cycle is aborted with a failure
observation and no reflection, the ledger records `made_progress = false`
and `had_failure = true` — but `ReasoningCycle.run` converts the error into
`Decision.BLOCKED`, so the agent loop commits that single cycle and then
immediately blocks the task (reason `"Cycle failed: <e>"`) instead of
continuing to the next cycle; the consecutive-failure budget is never the
mechanism that stops the task on this path. -/
theorem C2_lm_error_blocks_task (cycle_id : Nat) (task_id e : String)
    (act : Action → Observation) (reflectRes : Except String Reflection)
    (decideRes : Except String Decision)
    (stuckFn : List CycleState → Bool × String) (oracle : Nat → RunOutcome)
    (clock : Nat → Rat) (fuel : Nat) (b : AgentBudgets)
    (h : List CycleState) (n : Nat)
    (hcc : (check_can_continue b (clock (n + 1))).1 = true)
    (hst : (stuckFn h).1 = false)
    (hor : oracle (n + 1) = .returned
      (ReasoningCycle.run cycle_id task_id (.error e) act reflectRes decideRes)) :
    (ReasoningCycle.run cycle_id task_id (.error e) act reflectRes
      decideRes).decision = .BLOCKED ∧
    (ReasoningCycle.run cycle_id task_id (.error e) act reflectRes
      decideRes).state.observation =
      some { success := false, output := "", error := some e } ∧
    (ReasoningCycle.run cycle_id task_id (.error e) act reflectRes
      decideRes).state.reflection = none ∧
    madeProgressOf (ReasoningCycle.run cycle_id task_id (.error e) act
      reflectRes decideRes).state = false ∧
    hadFailureOf (ReasoningCycle.run cycle_id task_id (.error e) act
      reflectRes decideRes).state = true ∧
    run_cycles stuckFn oracle clock (fuel + 1) b h n =
      ⟨.blocked ("Cycle failed: " ++ e),
       h ++ [(ReasoningCycle.run cycle_id task_id (.error e) act reflectRes
         decideRes).state],
       record_iteration b false true, n + 1⟩ := by
  refine ⟨rfl, rfl, rfl, rfl, rfl, ?_⟩
  rw [run_cycles_blocked _ _ _ _ _ _ _ _ hcc hst hor rfl]
  have hsum : (ReasoningCycle.run cycle_id task_id (.error e) act reflectRes
    decideRes).summary = "Cycle failed: " ++ e := rfl
  have hmp : madeProgressOf (ReasoningCycle.run cycle_id task_id (.error e)
    act reflectRes decideRes).state = false := rfl
  have hhf : hadFailureOf (ReasoningCycle.run cycle_id task_id (.error e)
    act reflectRes decideRes).state = true := rfl
  rw [hsum, hmp, hhf, orDefault_of_ne _ _ (cycleFailed_ne_empty e)]

/-- Witness for the amended C2 at a concrete instance. -/
theorem C2_lm_error_blocks_task_witness :
    wBlockedResult.decision = .BLOCKED ∧
    wBlockedResult.state.observation =
      some { success := false, output := "", error := some "LM down" } ∧
    wBlockedResult.state.reflection = none ∧
    madeProgressOf wBlockedResult.state = false ∧
    hadFailureOf wBlockedResult.state = true ∧
    run_cycles (fun _ => (false, "")) (fun _ => .returned wBlockedResult)
        (fun _ => 0) 4 ({} : AgentBudgets) [] 0 =
      ⟨.blocked "Cycle failed: LM down", [wBlockedResult.state],
       record_iteration {} false true, 1⟩ :=
  C2_lm_error_blocks_task 1 "T-1" "LM down"
    (fun _ => { success := true, output := "" })
    (.error "LM down") (.error "LM down")
    (fun _ => (false, "")) (fun _ => .returned wBlockedResult) (fun _ => 0)
    3 {} [] 0 (by decide) rfl rfl

/-- Claim C10: with `task_started_at = None` the duration check of
`check_can_continue` is skipped entirely — the verdict does not depend on
the clock and, with all three counters under their limits, the check
passes — and `load_state` never restores `task_started_at` from the
persisted counters (which `save_state` does not even record), so after a
crash-and-restart without a new activation the
`max_task_duration_minutes` limit is not enforced. -/
theorem C10_no_duration_after_restart (b : AgentBudgets)
    (hnone : b.task_started_at = none) :
    (∀ now1 now2 : Rat, check_can_continue b now1 = check_can_continue b now2) ∧
    (b.current_task_iterations < b.max_iterations_per_task →
     b.current_task_failures < b.max_consecutive_failures →
     b.actions_without_progress < b.max_actions_without_progress →
     ∀ now, check_can_continue b now = (true, "")) ∧
    (∀ (b' : AgentBudgets) (file : Option SavedCounters),
      (load_state b' file).task_started_at = b'.task_started_at) := by
  refine ⟨?_, ?_, ?_⟩
  · intro now1 now2
    unfold check_can_continue
    rw [hnone]
  · intro h1 h2 h3 now
    unfold check_can_continue
    rw [hnone, if_neg (by omega), if_neg (by omega), if_neg (by omega)]
  · intro b' file
    cases file <;> rfl

/-- Witness for C10 at a concrete instance: a recovered ledger (counters
loaded, `task_started_at` still `None`). -/
theorem C10_no_duration_after_restart_witness :
    (∀ now1 now2 : Rat,
      check_can_continue wLoadedBudgets now1 =
        check_can_continue wLoadedBudgets now2) ∧
    (wLoadedBudgets.current_task_iterations <
        wLoadedBudgets.max_iterations_per_task →
     wLoadedBudgets.current_task_failures <
        wLoadedBudgets.max_consecutive_failures →
     wLoadedBudgets.actions_without_progress <
        wLoadedBudgets.max_actions_without_progress →
     ∀ now, check_can_continue wLoadedBudgets now = (true, "")) ∧
    (∀ (b' : AgentBudgets) (file : Option SavedCounters),
      (load_state b' file).task_started_at = b'.task_started_at) :=
  C10_no_duration_after_restart wLoadedBudgets rfl

/-- Counterexample to claim C4: three committed cycles carrying the same
observation error (and `progress_made = false`) do not trip the stuck
detector — `is_stuck` returns early whenever the history is shorter than
`window_size = 5` — and the loop therefore runs a fourth cycle instead of
pausing with three cycles committed. -/
theorem C4_counterexample :
    is_stuck 5 wErrHistory3 = (false, "") ∧
    (run_cycles (is_stuck 5) (fun _ => .returned wContinueResult)
        (fun _ => 0) 1 ({} : AgentBudgets) wErrHistory3 3).history.length = 4 := by
  exact ⟨rfl, rfl⟩

/-- Claim C4 as amended: the stuck detector ignores histories shorter than
`window_size = 5`; once at least 5 cycles are committed, if the repeated-
action check does not fire and the last 3 recorded observation errors of
the 5-cycle window are identical after normalization, `is_stuck` returns
stuck with reason `"Same error repeating: "` plus the last error truncated
to 100 chars, and the next loop iteration pauses the task with that reason
without committing another cycle (so in the repeated-error scenario 5
cycles are committed, not 3; the stored pause annotation is the reason
prefixed with `"Agent stuck: "`). -/
theorem C4_stuck_error_window (history : List CycleState)
    (hlen : 5 ≤ history.length)
    (hact : allEqual (takeLast 3 (actionsOf (takeLast 5 history))) = false)
    (herr : 3 ≤ (errorsOf (takeLast 5 history)).length)
    (hsim : errors_similar (takeLast 3 (errorsOf (takeLast 5 history))) = true)
    (b : AgentBudgets) (oracle : Nat → RunOutcome) (clock : Nat → Rat)
    (fuel n : Nat)
    (hcc : (check_can_continue b (clock (n + 1))).1 = true) :
    is_stuck 5 history =
      (true, "Same error repeating: " ++
        ((takeLast 3 (errorsOf (takeLast 5 history))).getLastD "").take 100) ∧
    run_cycles (is_stuck 5) oracle clock (fuel + 1) b history n =
      ⟨.pausedStuck ("Same error repeating: " ++
        ((takeLast 3 (errorsOf (takeLast 5 history))).getLastD "").take 100),
       history, b, n + 1⟩ ∧
    handle_stuck_reason ("Same error repeating: " ++
        ((takeLast 3 (errorsOf (takeLast 5 history))).getLastD "").take 100) =
      "Agent stuck: " ++ ("Same error repeating: " ++
        ((takeLast 3 (errorsOf (takeLast 5 history))).getLastD "").take 100) := by
  have hs : is_stuck 5 history =
      (true, "Same error repeating: " ++
        ((takeLast 3 (errorsOf (takeLast 5 history))).getLastD "").take 100) := by
    unfold is_stuck
    rw [if_neg (by omega)]
    simp only [hact, Bool.and_false, Bool.false_eq_true, if_false, hsim,
      Bool.and_true, decide_eq_true_eq]
    rw [if_pos herr]
  refine ⟨hs, ?_, rfl⟩
  exact run_cycles_stuck_stop _ _ _ _ _ _ _ _ hcc hs

set_option maxRecDepth 8000 in
/-- Witness for the amended C4: five cycles with distinct actions and the
same error; the detector fires and the loop pauses with the error reason. -/
theorem C4_stuck_error_window_witness :
    is_stuck 5 wErrHistory5 =
      (true, "Same error repeating: cannot open /tmp/xyz: No such file or directory") ∧
    run_cycles (is_stuck 5) (fun _ => .returned wContinueResult) (fun _ => 0)
        1 ({} : AgentBudgets) wErrHistory5 5 =
      ⟨.pausedStuck
        "Same error repeating: cannot open /tmp/xyz: No such file or directory",
       wErrHistory5, {}, 6⟩ ∧
    handle_stuck_reason
        "Same error repeating: cannot open /tmp/xyz: No such file or directory" =
      "Agent stuck: " ++ ("Same error repeating: " ++
        ("cannot open /tmp/xyz: No such file or directory" : String).take 100) :=
  C4_stuck_error_window wErrHistory5 (by decide) (by decide) (by decide)
    (by decide) {} (fun _ => .returned wContinueResult) (fun _ => 0) 0 5
    (by decide)

/-- Claim C5: when the PLAN response is not valid JSON (after stripping an
optional fenced code block), `_parse_json_response` returns the fallback
dictionary instead of failing, `_plan` turns it into the minimal safe plan
whose single action is `execute_command` with command
`echo 'Parse error, continuing'` (the dictionary also carries
`progress_made = false`, and an unparseable REFLECT response yields the
fallback reflection with `progress_made = false`); the cycle proceeds
through ACT with that action, the resulting state is committed to the
history, and with a CONTINUE decision the loop keeps the task active. -/
theorem C5_parse_error_fallback (loads : String → Option JVal)
    (content rcontent : String)
    (hfail : loads (pyStrip (stripCodeBlock content)) = none)
    (hrfail : loads (pyStrip (stripCodeBlock rcontent)) = none)
    (cycle_id : Nat) (task_id : String) (act : Action → Observation)
    (refl : Reflection) (stuckFn : List CycleState → Bool × String)
    (oracle : Nat → RunOutcome) (clock : Nat → Rat) (fuel : Nat)
    (b : AgentBudgets) (h : List CycleState) (n : Nat)
    (hcc : (check_can_continue b (clock (n + 1))).1 = true)
    (hst : (stuckFn h).1 = false)
    (hor : oracle (n + 1) = .returned (ReasoningCycle.run cycle_id task_id
      (planOfResponse loads content) act (.ok refl) (.ok .CONTINUE))) :
    parse_json_response loads content = .jobj fallbackPlanDict ∧
    planOfResponse loads content = .ok fallbackPlan ∧
    fallbackPlan.next_action.action_type = .EXECUTE_COMMAND ∧
    jget fallbackPlan.next_action.payload "command" =
      some (.jstr "echo \x27Parse error, continuing\x27") ∧
    jget fallbackPlanDict "progress_made" = some (.jbool false) ∧
    reflectionOfResponse loads rcontent = .ok fallbackReflection ∧
    fallbackReflection.progress_made = false ∧
    (ReasoningCycle.run cycle_id task_id (planOfResponse loads content) act
      (.ok refl) (.ok .CONTINUE)).state.plan = some fallbackPlan ∧
    (ReasoningCycle.run cycle_id task_id (planOfResponse loads content) act
      (.ok refl) (.ok .CONTINUE)).state.observation =
      some (act fallbackPlan.next_action) ∧
    (ReasoningCycle.run cycle_id task_id (planOfResponse loads content) act
      (.ok refl) (.ok .CONTINUE)).decision = .CONTINUE ∧
    run_cycles stuckFn oracle clock (fuel + 1) b h n =
      run_cycles stuckFn oracle clock fuel
        (record_iteration b refl.progress_made
          (!(act fallbackPlan.next_action).success))
        (h ++ [(ReasoningCycle.run cycle_id task_id
          (planOfResponse loads content) act (.ok refl)
          (.ok .CONTINUE)).state]) (n + 1) := by
  have hparse : parse_json_response loads content = .jobj fallbackPlanDict := by
    unfold parse_json_response
    rw [hfail]
  have hplan : planOfResponse loads content = .ok fallbackPlan := by
    unfold planOfResponse
    rw [hparse]
    rfl
  have hrefl : reflectionOfResponse loads rcontent = .ok fallbackReflection := by
    have hparse2 : parse_json_response loads rcontent = .jobj fallbackPlanDict := by
      unfold parse_json_response
      rw [hrfail]
    unfold reflectionOfResponse
    rw [hparse2]
    rfl
  rw [hplan] at hor ⊢
  have hmp : madeProgressOf (ReasoningCycle.run cycle_id task_id
      (.ok fallbackPlan) act (.ok refl) (.ok .CONTINUE)).state =
      refl.progress_made := rfl
  have hhf : hadFailureOf (ReasoningCycle.run cycle_id task_id
      (.ok fallbackPlan) act (.ok refl) (.ok .CONTINUE)).state =
      !(act fallbackPlan.next_action).success := rfl
  refine ⟨hparse, rfl, rfl, rfl, rfl, hrefl, rfl, rfl, rfl, rfl, ?_⟩
  rw [run_cycles_continue _ _ _ _ _ _ _ _ hcc hst hor rfl, hmp, hhf]

/-- Witness for C5 at a concrete instance: a parser that rejects everything
and a garbage response. -/
theorem C5_parse_error_fallback_witness :
    parse_json_response (fun _ => none) "garbage !!" = .jobj fallbackPlanDict ∧
    planOfResponse (fun _ => none) "garbage !!" = .ok fallbackPlan ∧
    fallbackPlan.next_action.action_type = .EXECUTE_COMMAND ∧
    jget fallbackPlan.next_action.payload "command" =
      some (.jstr "echo \x27Parse error, continuing\x27") ∧
    jget fallbackPlanDict "progress_made" = some (.jbool false) ∧
    reflectionOfResponse (fun _ => none) "also garbage" =
      .ok fallbackReflection ∧
    fallbackReflection.progress_made = false ∧
    (ReasoningCycle.run 1 "T-1" (planOfResponse (fun _ => none) "garbage !!")
      (fun _ => { success := true, output := "Parse error, continuing" })
      (.ok wRefl) (.ok .CONTINUE)).state.plan = some fallbackPlan ∧
    (ReasoningCycle.run 1 "T-1" (planOfResponse (fun _ => none) "garbage !!")
      (fun _ => { success := true, output := "Parse error, continuing" })
      (.ok wRefl) (.ok .CONTINUE)).state.observation =
      some ((fun _ => { success := true, output := "Parse error, continuing" } :
        Action → Observation) fallbackPlan.next_action) ∧
    (ReasoningCycle.run 1 "T-1" (planOfResponse (fun _ => none) "garbage !!")
      (fun _ => { success := true, output := "Parse error, continuing" })
      (.ok wRefl) (.ok .CONTINUE)).decision = .CONTINUE ∧
    run_cycles (fun _ => (false, ""))
        (fun _ => .returned (ReasoningCycle.run 1 "T-1"
          (planOfResponse (fun _ => none) "garbage !!")
          (fun _ => { success := true, output := "Parse error, continuing" })
          (.ok wRefl) (.ok .CONTINUE)))
        (fun _ => 0) 4 ({} : AgentBudgets) [] 0 =
      run_cycles (fun _ => (false, ""))
        (fun _ => .returned (ReasoningCycle.run 1 "T-1"
          (planOfResponse (fun _ => none) "garbage !!")
          (fun _ => { success := true, output := "Parse error, continuing" })
          (.ok wRefl) (.ok .CONTINUE)))
        (fun _ => 0) 3
        (record_iteration {} wRefl.progress_made
          (!((fun _ => { success := true, output := "Parse error, continuing" } :
            Action → Observation) fallbackPlan.next_action).success))
        ([] ++ [(ReasoningCycle.run 1 "T-1"
          (planOfResponse (fun _ => none) "garbage !!")
          (fun _ => { success := true, output := "Parse error, continuing" })
          (.ok wRefl) (.ok .CONTINUE)).state]) (0 + 1) :=
  C5_parse_error_fallback (fun _ => none) "garbage !!" "also garbage" rfl rfl
    1 "T-1" (fun _ => { success := true, output := "Parse error, continuing" })
    wRefl (fun _ => (false, ""))
    (fun _ => .returned (ReasoningCycle.run 1 "T-1"
      (planOfResponse (fun _ => none) "garbage !!")
      (fun _ => { success := true, output := "Parse error, continuing" })
      (.ok wRefl) (.ok .CONTINUE)))
    (fun _ => 0) 3 {} [] 0 (by decide) rfl rfl

/-- Counterexample to claim C6: on a missing executable the stderr is
`"Command not found: <command>"`, not the exact string
`"Command not found"` the claim states. -/
theorem C6_counterexample :
    (Executor.execute "nosuchcmd" [] "/agent/scratch" 300 .notFound 5
      none none).1.stderr = "Command not found: nosuchcmd" ∧
    "Command not found: nosuchcmd" ≠ "Command not found" :=
  ⟨rfl, by decide⟩

/-- Claim C6 as amended: a timed-out execution returns `timed_out = true`
with `exit_code = -1` (stderr `"Command timed out after <t>s"`); a missing
executable returns `exit_code = 127` with stderr `"Command not found: "`
followed by the command; and every execution, whatever its outcome, emits a
`command_execution` event carrying its exit code and duration. -/
theorem C6_execute_results (cmd : String) (args : List String) (cwd : String)
    (timeout : Nat) (pout : Option String) (dur : Nat)
    (task_id skill : Option String) :
    (Executor.execute cmd args cwd timeout (.timedOut pout) dur
      task_id skill).1.timed_out = true ∧
    (Executor.execute cmd args cwd timeout (.timedOut pout) dur
      task_id skill).1.exit_code = -1 ∧
    (Executor.execute cmd args cwd timeout (.timedOut pout) dur
      task_id skill).1.stderr =
      "Command timed out after " ++ toString timeout ++ "s" ∧
    (Executor.execute cmd args cwd timeout .notFound dur
      task_id skill).1.exit_code = 127 ∧
    (Executor.execute cmd args cwd timeout .notFound dur
      task_id skill).1.stderr = "Command not found: " ++ cmd ∧
    (Executor.execute cmd args cwd timeout .notFound dur
      task_id skill).1.timed_out = false ∧
    (∀ outcome : SpawnOutcome,
      (Executor.execute cmd args cwd timeout outcome dur task_id skill).2 =
        log_command cmd args cwd
          (Executor.execute cmd args cwd timeout outcome dur
            task_id skill).1.exit_code dur task_id skill ∧
      (Executor.execute cmd args cwd timeout outcome dur
        task_id skill).2.event_type = "command_execution" ∧
      (Executor.execute cmd args cwd timeout outcome dur
        task_id skill).2.execution_exit_codes =
        [(Executor.execute cmd args cwd timeout outcome dur
          task_id skill).1.exit_code] ∧
      (Executor.execute cmd args cwd timeout outcome dur
        task_id skill).2.execution_duration_ms = some dur) :=
  ⟨rfl, rfl, rfl, rfl, rfl, rfl, fun _ => ⟨rfl, rfl, rfl, rfl⟩⟩

/-- Counterexample to claim C7: the event-log file name is computed from
the UTC date (`datetime.now(timezone.utc)`), not the host-local date; at a
moment when the two dates differ the appended path is the UTC one. -/
theorem C7_counterexample :
    (EventLogger.log ⟨"2024-01-02", "2024-01-01"⟩ wEvent .ok).appended =
      some ("logs/events/2024-01-02.jsonl", wEvent) ∧
    get_today_log ⟨"2024-01-02", "2024-01-01"⟩ ≠
      spec_local_log_path ⟨"2024-01-02", "2024-01-01"⟩ :=
  ⟨rfl, by decide⟩

/-- Claim C7 as amended: every appended event goes, as one JSON line, to
`logs/events/<YYYY-MM-DD>.jsonl` where the date is the UTC date (not the
host-local date) at the time of the append; and when the write fails the
failure is never silent — process stderr receives a `CRITICAL` notice with
the stringified exception plus the event body. -/
theorem C7_log_utc_and_loud (clock : Clock) (event : Event) :
    (EventLogger.log clock event .ok).appended =
      some ("logs/events/" ++ clock.utcDate ++ ".jsonl", event) ∧
    (EventLogger.log clock event .ok).stderr = [] ∧
    (∀ e, (EventLogger.log clock event (.failed e)).appended = none ∧
      (EventLogger.log clock event (.failed e)).stderr =
        [.critical ("Failed to write event log: " ++ e), .eventBody event] ∧
      (EventLogger.log clock event (.failed e)).stderr ≠ []) :=
  ⟨rfl, rfl, fun _ => ⟨rfl, rfl, by simp [EventLogger.log]⟩⟩

/-- Membership in `insertDesc`. -/
theorem mem_insertDesc (x a : CuriosityProposal) (l : List CuriosityProposal) :
    a ∈ insertDesc x l ↔ a = x ∨ a ∈ l := by
  induction l with
  | nil => simp [insertDesc]
  | cons y ys ih =>
      by_cases h : x.estimated_value ≥ y.estimated_value
      · simp [insertDesc, h]
      · simp only [insertDesc, if_neg h, List.mem_cons, ih]
        tauto

/-- The sort keeps exactly the filtered elements. -/
theorem mem_sortByValueDesc (a : CuriosityProposal)
    (l : List CuriosityProposal) : a ∈ sortByValueDesc l ↔ a ∈ l := by
  induction l with
  | nil => simp [sortByValueDesc]
  | cons y ys ih => simp [sortByValueDesc, mem_insertDesc, ih]

/-- The sort preserves length. -/
theorem length_sortByValueDesc (l : List CuriosityProposal) :
    (sortByValueDesc l).length = l.length := by
  induction l with
  | nil => rfl
  | cons y ys ih =>
      have hlen : ∀ (x : CuriosityProposal) (m : List CuriosityProposal),
          (insertDesc x m).length = m.length + 1 := by
        intro x m
        induction m with
        | nil => rfl
        | cons z zs ihz =>
            by_cases h : x.estimated_value ≥ z.estimated_value
            · simp [insertDesc, h]
            · simp [insertDesc, h, ihz]
      simp [sortByValueDesc, hlen, ih]

/-- Inserting into a value-descending list keeps it value-descending. -/
theorem pairwise_insertDesc (x : CuriosityProposal)
    (l : List CuriosityProposal)
    (hl : l.Pairwise (fun a b => b.estimated_value ≤ a.estimated_value)) :
    (insertDesc x l).Pairwise
      (fun a b => b.estimated_value ≤ a.estimated_value) := by
  induction l with
  | nil => simp [insertDesc]
  | cons y ys ih =>
      rcases List.pairwise_cons.mp hl with ⟨hy, hys⟩
      by_cases h : x.estimated_value ≥ y.estimated_value
      · rw [insertDesc, if_pos h]
        refine List.pairwise_cons.mpr ⟨?_, hl⟩
        intro b hb
        rcases List.mem_cons.mp hb with rfl | hb2
        · exact h
        · exact le_trans (hy b hb2) h
      · rw [insertDesc, if_neg h]
        refine List.pairwise_cons.mpr ⟨?_, ih hys⟩
        intro b hb
        rcases (mem_insertDesc x b ys).mp hb with rfl | hb2
        · exact le_of_not_le h
        · exact hy b hb2

/-- The sort produces a value-descending list. -/
theorem pairwise_sortByValueDesc (l : List CuriosityProposal) :
    (sortByValueDesc l).Pairwise
      (fun a b => b.estimated_value ≤ a.estimated_value) := by
  induction l with
  | nil => simp [sortByValueDesc]
  | cons y ys ih => exact pairwise_insertDesc y _ ih

/-- The four filter conditions, as propositions. -/
theorem validProposal_iff (ev : CuriosityEvaluator) (p : CuriosityProposal) :
    validProposal ev p = true ↔
      ev.min_value_threshold ≤ p.estimated_value ∧
      p.category ∈ ALLOWED_CATEGORIES ∧
      10 ≤ p.justification.length ∧ 20 ≤ p.description.length := by
  unfold validProposal
  have hcont : (ALLOWED_CATEGORIES.contains p.category = true) ↔
      p.category ∈ ALLOWED_CATEGORIES := List.elem_iff
  split_ifs with h1 h2 h3 h4 <;> simp_all [not_lt]

/-- Claim C8: `evaluate_proposals` returns exactly the proposals whose
estimated value is at least the threshold, whose category is in the allowed
set, whose justification has at least 10 chars and whose description has at
least 20 chars, sorted by estimated value descending (stably) and truncated
to at most `max_proposals_per_cycle` elements: it equals
filter-sort-take, every returned proposal comes from the input and passes
all four checks, the output is value-descending and capped, and when at
most `max_proposals_per_cycle` proposals survive the filter, every valid
input proposal is returned. -/
theorem C8_curiosity_filter (ev : CuriosityEvaluator)
    (proposals : List CuriosityProposal) :
    evaluate_proposals ev proposals =
      (sortByValueDesc (proposals.filter (validProposal ev))).take
        ev.max_proposals_per_cycle ∧
    (evaluate_proposals ev proposals).length ≤ ev.max_proposals_per_cycle ∧
    (∀ p ∈ evaluate_proposals ev proposals,
      p ∈ proposals ∧ ev.min_value_threshold ≤ p.estimated_value ∧
      p.category ∈ ALLOWED_CATEGORIES ∧
      10 ≤ p.justification.length ∧ 20 ≤ p.description.length) ∧
    (evaluate_proposals ev proposals).Pairwise
      (fun a b => b.estimated_value ≤ a.estimated_value) ∧
    ((proposals.filter (validProposal ev)).length ≤
        ev.max_proposals_per_cycle →
      ∀ p ∈ proposals, validProposal ev p = true →
        p ∈ evaluate_proposals ev proposals) := by
  have h1 : evaluate_proposals ev proposals =
      (sortByValueDesc (proposals.filter (validProposal ev))).take
        ev.max_proposals_per_cycle := by
    cases proposals with
    | nil => simp [evaluate_proposals, sortByValueDesc]
    | cons a l => rfl
  refine ⟨h1, ?_, ?_, ?_, ?_⟩
  · rw [h1]
    exact List.length_take_le _ _
  · intro p hp
    rw [h1] at hp
    have hmem := (mem_sortByValueDesc p _).mp (List.mem_of_mem_take hp)
    rcases List.mem_filter.mp hmem with ⟨hin, hvalid⟩
    rcases (validProposal_iff ev p).mp hvalid with ⟨hv, hc, hj, hd⟩
    exact ⟨hin, hv, hc, hj, hd⟩
  · rw [h1]
    exact (pairwise_sortByValueDesc _).sublist (List.take_sublist _ _)
  · intro hlen p hp hvalid
    rw [h1, List.take_of_length_le (by rw [length_sortByValueDesc]; exact hlen)]
    exact (mem_sortByValueDesc p _).mpr (List.mem_filter.mpr ⟨hp, hvalid⟩)

/-- Witness for C8 at a concrete evaluator and proposal list. -/
theorem C8_curiosity_filter_witness :
    evaluate_proposals {} wProposals =
      (sortByValueDesc (wProposals.filter (validProposal {}))).take
        ({} : CuriosityEvaluator).max_proposals_per_cycle ∧
    (evaluate_proposals {} wProposals).length ≤
      ({} : CuriosityEvaluator).max_proposals_per_cycle ∧
    (∀ p ∈ evaluate_proposals {} wProposals,
      p ∈ wProposals ∧
      ({} : CuriosityEvaluator).min_value_threshold ≤ p.estimated_value ∧
      p.category ∈ ALLOWED_CATEGORIES ∧
      10 ≤ p.justification.length ∧ 20 ≤ p.description.length) ∧
    (evaluate_proposals {} wProposals).Pairwise
      (fun a b => b.estimated_value ≤ a.estimated_value) ∧
    ((wProposals.filter (validProposal {})).length ≤
        ({} : CuriosityEvaluator).max_proposals_per_cycle →
      ∀ p ∈ wProposals, validProposal {} p = true →
        p ∈ evaluate_proposals {} wProposals) :=
  C8_curiosity_filter {} wProposals

/-- Counterexample to claim C9: the assembler's token estimate is a floor
division, not a ceiling — on 5 characters it yields 1, not
`ceil(5/4) = 2`. -/
theorem C9_counterexample :
    estimate_tokens "abcde" = 1 ∧ spec_ceil_estimate "abcde" = 2 ∧
    estimate_tokens "abcde" ≠ spec_ceil_estimate "abcde" :=
  ⟨rfl, rfl, by decide⟩

/-- Claim C9 as amended: the token estimate is `floor(chars/4)` (so
`4·estimate ≤ chars < 4·estimate + 4`), not `ceil(chars/4)`; in the
assembly loop a fitting item is appended whole, an over-budget `"always"`
item is truncated to `available × 4` characters and marked `"[truncated]"`
only when more than 100 tokens remain — with 100 or fewer remaining tokens
even an `"always"` item is dropped — and an over-budget optional item is
dropped. -/
theorem C9_floor_estimate_and_truncation (text : String) (max_tokens : Nat)
    (acc : List String × Nat) (item : ContextItem) :
    estimate_tokens text = text.length / 4 ∧
    4 * estimate_tokens text ≤ text.length ∧
    text.length < 4 * estimate_tokens text + 4 ∧
    (acc.2 + item.token_estimate ≤ max_tokens →
      assembleStep max_tokens acc item =
        (acc.1 ++ ["## " ++ item.name ++ "\n" ++ item.content],
         acc.2 + item.token_estimate)) ∧
    (acc.2 + item.token_estimate > max_tokens → item.tier = "always" →
      max_tokens - acc.2 > 100 →
      assembleStep max_tokens acc item =
        (acc.1 ++ ["## " ++ item.name ++ "\n" ++
          item.content.take ((max_tokens - acc.2) * CHARS_PER_TOKEN) ++
          "\n[truncated]"],
         acc.2 + (max_tokens - acc.2))) ∧
    (acc.2 + item.token_estimate > max_tokens → item.tier = "always" →
      ¬(max_tokens - acc.2 > 100) →
      assembleStep max_tokens acc item = acc) ∧
    (acc.2 + item.token_estimate > max_tokens → item.tier ≠ "always" →
      assembleStep max_tokens acc item = acc) := by
  refine ⟨rfl, ?_, ?_, ?_, ?_, ?_, ?_⟩
  · have h := Nat.div_add_mod text.length 4
    have h2 : text.length % 4 < 4 := Nat.mod_lt _ (by omega)
    unfold estimate_tokens CHARS_PER_TOKEN
    omega
  · have h := Nat.div_add_mod text.length 4
    have h2 : text.length % 4 < 4 := Nat.mod_lt _ (by omega)
    unfold estimate_tokens CHARS_PER_TOKEN
    omega
  · intro hfit
    unfold assembleStep
    rw [if_neg (by omega)]
  · intro hover htier hroom
    unfold assembleStep
    rw [if_pos hover, if_pos htier, if_pos hroom]
  · intro hover htier hroom
    unfold assembleStep
    rw [if_pos hover, if_pos htier, if_neg hroom]
  · intro hover htier
    unfold assembleStep
    rw [if_pos hover, if_neg htier]

/-- Witness for the amended C9 at concrete inputs: a 5-char text, a fitting
item, a truncated must-have item, a dropped must-have item with little
room, and a dropped optional item can all be read off from the theorem
instantiated four times; here it is applied at the truncation instance. -/
theorem C9_floor_estimate_and_truncation_witness :
    estimate_tokens "abcde" = ("abcde" : String).length / 4 ∧
    4 * estimate_tokens "abcde" ≤ ("abcde" : String).length ∧
    ("abcde" : String).length < 4 * estimate_tokens "abcde" + 4 ∧
    ((0 : Nat) + 2000 ≤ 500 →
      assembleStep 500 ([], 0)
          { name := "identity", content := "x", tier := "always",
            priority := 1, token_estimate := 2000 } =
        ([] ++ ["## " ++ "identity" ++ "\n" ++ "x"], 0 + 2000)) ∧
    ((0 : Nat) + 2000 > 500 → "always" = "always" → 500 - 0 > 100 →
      assembleStep 500 ([], 0)
          { name := "identity", content := "x", tier := "always",
            priority := 1, token_estimate := 2000 } =
        ([] ++ ["## " ++ "identity" ++ "\n" ++
          ("x" : String).take ((500 - 0) * CHARS_PER_TOKEN) ++
          "\n[truncated]"], 0 + (500 - 0))) ∧
    ((0 : Nat) + 2000 > 500 → "always" = "always" → ¬((500 : Nat) - 0 > 100) →
      assembleStep 500 ([], 0)
          { name := "identity", content := "x", tier := "always",
            priority := 1, token_estimate := 2000 } = ([], 0)) ∧
    ((0 : Nat) + 2000 > 500 → "always" ≠ "always" →
      assembleStep 500 ([], 0)
          { name := "identity", content := "x", tier := "always",
            priority := 1, token_estimate := 2000 } = ([], 0)) :=
  C9_floor_estimate_and_truncation "abcde" 500 ([], 0)
    { name := "identity", content := "x", tier := "always",
      priority := 1, token_estimate := 2000 }

/-- A positive curiosity-budget verdict implies the depth argument is
strictly below `max_curiosity_depth`. -/
theorem check_curiosity_depth_lt (bb : AgentBudgets) (depth today : Nat)
    (h : (check_can_create_curiosity_task bb depth today).1 = true) :
    depth < bb.max_curiosity_depth := by
  unfold check_can_create_curiosity_task at h
  split_ifs at h with h1 h2 h3
  omega

/-- `record_curiosity_task` touches only the day counter and date. -/
theorem record_curiosity_preserves_depth (bb : AgentBudgets) (today : Nat) :
    (record_curiosity_task bb today).max_curiosity_depth =
      bb.max_curiosity_depth := by
  unfold record_curiosity_task
  split <;> rfl

/-- Every task accumulated by folding `admitStep` over proposals drawn from
`L` satisfies any property that holds of each admitted `create_task` result
under a positive curiosity-budget verdict. -/
theorem admit_foldl_mem (today pc ac : Nat) (pid : String) (depth1 : Nat)
    (ids : Nat → String) (P : Task → Prop) (M : Nat)
    (L : List CuriosityProposal)
    (hP : ∀ (p : CuriosityProposal), p ∈ L → ∀ (k : Nat) (bb : AgentBudgets),
      bb.max_curiosity_depth = M →
      (check_can_create_curiosity_task bb depth1 today).1 = true →
      P (create_task p.description .CURIOSITY p.priority (some pid) "" none
        (ids k))) :
    ∀ (l : List CuriosityProposal), (∀ p ∈ l, p ∈ L) →
      ∀ (acc : List Task × AgentBudgets),
      acc.2.max_curiosity_depth = M → (∀ t ∈ acc.1, P t) →
      ∀ t ∈ (l.foldl (admitStep today pc ac pid depth1 ids) acc).1, P t := by
  intro l
  induction l with
  | nil => exact fun _ acc hM hacc t ht => hacc t ht
  | cons p ps ih =>
      intro hl acc hM hacc t ht
      rw [List.foldl_cons] at ht
      refine ih (fun q hq => hl q (List.mem_cons_of_mem p hq))
        (admitStep today pc ac pid depth1 ids acc p) ?_ ?_ t ht
      · unfold admitStep
        split
        · simpa [record_curiosity_preserves_depth] using hM
        · exact hM
      · intro u hu
        unfold admitStep at hu
        split at hu
        · rename_i hcond
          rcases List.mem_append.mp hu with hold | hnew
          · exact hacc u hold
          · rw [List.mem_singleton.mp hnew]
            exact hP p (hl p (List.mem_cons_self p ps)) acc.1.length acc.2 hM
              (Bool.and_elim_left (by simpa using hcond))
        · exact hacc u hu

set_option maxRecDepth 16000 in
/-- Counterexample to claim C3: at the concrete admission of one valid
proposal from a depth-0 parent, the created task's inbox record carries no
`curiosity_depth` header at all, so re-parsing it yields `0`, not
`d + 1 = 1` as the claim states (the in-memory `Task` also has
`curiosity_depth = 0`, the dataclass default: `TaskManager.create_task`
accepts no depth argument). -/
theorem C3_counterexample :
    (wC3run.1.headD wDefaultTask).origin = TaskOrigin.CURIOSITY ∧
    (wC3run.1.headD wDefaultTask).parent_task_id = some "T-1" ∧
    containsSub (wC3run.1.headD wDefaultTask).raw_content "curiosity_depth" =
      false ∧
    parsedCuriosityDepth (wC3run.1.headD wDefaultTask).raw_content = 0 ∧
    parsedCuriosityDepth (wC3run.1.headD wDefaultTask).raw_content ≠ 0 + 1 ∧
    (wC3run.1.headD wDefaultTask).curiosity_depth = 0 :=
  ⟨rfl, rfl, rfl, rfl, by decide, rfl⟩

/-- Claim C3 as amended: every task admitted by the curiosity admitter from
a parent at depth `d` has `origin = curiosity` and the parent task id set,
and admission itself requires `d + 1 < max_curiosity_depth` (so every
curiosity task is admitted strictly below the depth limit); but the task is
produced by `TaskManager.create_task`, which accepts no depth argument and
leaves `curiosity_depth` at the dataclass default `0` — and whose inbox
block contains only `task_id`, `priority`, `origin`, `parent_task`,
`context` and the body, never a `curiosity_depth` line — so re-parsing the
inbox yields `curiosity_depth = 0`, not `d + 1` (exhibited concretely by
the counterexample). -/
theorem C3_curiosity_depth_not_recorded (ev : CuriosityEvaluator)
    (b : AgentBudgets) (today pc ac : Nat)
    (proposals : List CuriosityProposal) (pid : String) (d : Nat)
    (ids : Nat → String) (t : Task)
    (ht : t ∈ (process_proposals ev b today pc ac proposals pid d ids).1) :
    t.origin = .CURIOSITY ∧ t.parent_task_id = some pid ∧
    d + 1 < b.max_curiosity_depth ∧ t.curiosity_depth = 0 ∧
    ∃ (p : CuriosityProposal) (k : Nat), p ∈ evaluate_proposals ev proposals ∧
      t = create_task p.description .CURIOSITY p.priority (some pid) "" none
        (ids k) := by
  refine admit_foldl_mem today pc ac pid (d + 1) ids
    (fun t => t.origin = .CURIOSITY ∧ t.parent_task_id = some pid ∧
      d + 1 < b.max_curiosity_depth ∧ t.curiosity_depth = 0 ∧
      ∃ (p : CuriosityProposal) (k : Nat), p ∈ evaluate_proposals ev proposals ∧
        t = create_task p.description .CURIOSITY p.priority (some pid) ""
          none (ids k))
    b.max_curiosity_depth (evaluate_proposals ev proposals) ?_
    (evaluate_proposals ev proposals) (fun _ hq => hq) ([], b) rfl
    (by simp) t ht
  intro p hpL k bb hM hcheck
  have hdepth : d + 1 < b.max_curiosity_depth := by
    have := check_curiosity_depth_lt bb (d + 1) today hcheck
    omega
  exact ⟨rfl, rfl, hdepth, rfl, p, k, hpL, rfl⟩

set_option maxRecDepth 16000 in
/-- Witness for the amended C3 at the concrete admission run. -/
theorem C3_curiosity_depth_not_recorded_witness :
    (wC3run.1.headD wDefaultTask).origin = .CURIOSITY ∧
    (wC3run.1.headD wDefaultTask).parent_task_id = some "T-1" ∧
    0 + 1 < ({} : AgentBudgets).max_curiosity_depth ∧
    (wC3run.1.headD wDefaultTask).curiosity_depth = 0 ∧
    (∃ (p : CuriosityProposal) (k : Nat),
      p ∈ evaluate_proposals wEvalZero [wAdmitProposal] ∧
      wC3run.1.headD wDefaultTask =
        create_task p.description .CURIOSITY p.priority (some "T-1") "" none
          ((fun _ => "CUR-1") k)) :=
  C3_curiosity_depth_not_recorded wEvalZero {} 0 0 1 [wAdmitProposal] "T-1" 0
    (fun _ => "CUR-1") (wC3run.1.headD wDefaultTask) (by decide)
end Tooeybot
